import Mathlib

/-! labean: request-to-action resolution (`handlers.go`)

A shallow embedding of `handlers.go`: the three handler functions
(`ServeHTTP`, `defaultHandler`, `taskHandler`) together with the pieces of the
Go standard library they call (`strings.Split`, `strings.ToLower`,
`strings.TrimPrefix`, `strconv.ParseUint`, `net.ParseIP`, `http.Error`).

Go strings are modelled as Lean strings (sequences of Unicode code points, i.e.
valid UTF-8).  Effects of a handler (log lines, task operations) are recorded in
an event trace; abnormal termination (`log.Fatal`, run-time panics) is an
explicit outcome.
-/

namespace Labean

/-! ## Go standard library: `strings` -/

/-- Go `strings.Split(s, sep)` for a one-byte separator, on the characters of
`s`: the pieces between consecutive separators; always at least one piece. -/
def splitChars (sep : Char) : List Char → List (List Char)
  | [] => [[]]
  | c :: cs =>
    if c = sep then [] :: splitChars sep cs
    else
      match splitChars sep cs with
      | [] => [[c]]
      | p :: ps => (c :: p) :: ps

/-- Go `strings.Split(s, sep)` where `sep` is a one-byte string (`"/"` and
`":"` are the only separators `handlers.go` uses). -/
def strings_Split (s : String) (sep : Char) : List String :=
  (splitChars sep s.data).map String.mk

/-- Go `unicode.ToLower` on one rune: ASCII letters are lowered directly, any
rune outside ASCII goes through the Unicode case table `tbl`. -/
def unicode_ToLower (tbl : Char → Char) (c : Char) : Char :=
  if c.toNat < 128 then c.toLower else tbl c

/-- Go `strings.ToLower(s)`: every rune mapped through `unicode.ToLower`. -/
def strings_ToLower (tbl : Char → Char) (s : String) : String :=
  String.mk (s.data.map (unicode_ToLower tbl))

/-- Go `strings.TrimPrefix(s, p)`: `s` without the leading `p` when `s` starts
with `p`, otherwise `s` unchanged. -/
def strings_TrimPrefix (s p : String) : String :=
  if p.data.isPrefixOf s.data then String.mk (s.data.drop p.data.length) else s

/-! ## Go standard library: `strconv.ParseUint` -/

/-- The two error kinds of `strconv.ParseUint`. -/
inductive NumError where
  | ErrSyntax
  | ErrRange
deriving DecidableEq, Repr

/-- The digit loop of `strconv.ParseUint(s, 10, bitSize)`; `n` is the
accumulator (a `uint64`). -/
def parseUintLoop (bitSize : Nat) : List Char → Nat → Except NumError Nat
  | [], n => .ok n
  | c :: cs, n =>
    if 48 ≤ c.toNat ∧ c.toNat ≤ 57 then
      let d := c.toNat - 48
      -- cutoff = maxUint64/10 + 1
      if n ≥ (2 ^ 64 - 1) / 10 + 1 then .error .ErrRange
      else
        let n10 := (n * 10) % 2 ^ 64
        let n1 := (n10 + d) % 2 ^ 64
        if n1 < n10 ∨ n1 > 2 ^ bitSize - 1 then .error .ErrRange
        else parseUintLoop bitSize cs n1
    else
      -- letters are digits 10.. and so >= base; everything else is no digit
      .error .ErrSyntax

/-- Go `strconv.ParseUint(s, 10, bitSize)` for `0 < bitSize ≤ 64`. -/
def strconv_ParseUint (s : String) (bitSize : Nat) : Except NumError Nat :=
  if s.data = [] then .error .ErrSyntax else parseUintLoop bitSize s.data 0

/-! ## Go standard library: `net.ParseIP`

Modelled after `net.ParseIP`, which is `netip.ParseAddr` restricted to addresses
without a zone.  Only whether the result is `nil` matters to `handlers.go`, so
the model returns a `Bool`: `true` when `net.ParseIP(s) != nil`. -/

/-- Decimal digit test on a byte. -/
def isDecDigit (c : Char) : Bool := decide (48 ≤ c.toNat ∧ c.toNat ≤ 57)

/-- The loop of `netip.parseIPv4Fields` over the remaining bytes.  `first` says
the loop is at index 0, `prevDot` that the previous byte was a dot; `val`,
`digLen` and `pos` are the loop variables of the same names. -/
def parseIPv4Fields : List Char → Bool → Bool → Nat → Nat → Nat → Bool
  | [], _, _, _, _, pos => decide (¬ pos < 3)
  | c :: rest, first, prevDot, val, digLen, pos =>
    if isDecDigit c then
      if digLen = 1 ∧ val = 0 then false
      else if val * 10 + (c.toNat - 48) > 255 then false
      else parseIPv4Fields rest false false (val * 10 + (c.toNat - 48)) (digLen + 1) pos
    else if c = '.' then
      if first ∨ rest = [] ∨ prevDot then false
      else if pos = 3 then false
      else parseIPv4Fields rest false true 0 0 (pos + 1)
    else false

/-- Go `netip.parseIPv4`, success only. -/
def parseIPv4 (s : List Char) : Bool := parseIPv4Fields s true false 0 0 0

/-- Hexadecimal digit test on a byte. -/
def isHexDigit (c : Char) : Bool :=
  decide ((48 ≤ c.toNat ∧ c.toNat ≤ 57) ∨ (97 ≤ c.toNat ∧ c.toNat ≤ 102) ∨
    (65 ≤ c.toNat ∧ c.toNat ≤ 70))

/-- The hex-group scan inside `netip.parseIPv6`: starting at offset `off`,
consumes hex digits and returns the final offset and the rest, or `none` when a
fifth digit is met ("each group must have 4 or less digits"). -/
def scanHexGroup : List Char → Nat → Option (Nat × List Char)
  | [], off => some (off, [])
  | c :: rest, off =>
    if isHexDigit c then
      if off > 3 then none else scanHexGroup rest (off + 1)
    else some (off, c :: rest)

/-- The main loop of `netip.parseIPv6` followed by its final checks.  `groups`
bounds the iterations that are left (`i < 16` with `i` growing by 2); `i` is the
number of bytes written and `ellipsis` records whether a `::` has been seen. -/
def parseIPv6Loop : Nat → List Char → Nat → Bool → Bool
  | 0, s, i, ellipsis =>
    -- loop left because i = 16
    if s ≠ [] then false
    else if i < 16 then ellipsis
    else !ellipsis
  | groups + 1, s, i, ellipsis =>
    match scanHexGroup s 0 with
    | none => false
    | some (off, rest) =>
      if off = 0 then false
      else
        match rest with
        | [] =>
          -- chunk saved, end of string
          if i + 2 < 16 then ellipsis else !ellipsis
        | c :: rest1 =>
          if c = '.' then
            if ¬ ellipsis ∧ i ≠ 12 then false
            else if i + 4 > 16 then false
            else if ¬ parseIPv4 s then false
            else if i + 4 < 16 then ellipsis else !ellipsis
          else if c ≠ ':' then false
          else
            match rest1 with
            | [] => false
            | c1 :: rest2 =>
              if c1 = ':' then
                if ellipsis then false
                else
                  match rest2 with
                  | [] => decide (i + 2 < 16)
                  | _ :: _ => parseIPv6Loop groups rest2 (i + 2) true
              else parseIPv6Loop groups rest1 (i + 2) ellipsis

/-- Go `netip.parseIPv6` for an input without a zone, success only. -/
def parseIPv6 (s : List Char) : Bool :=
  match s with
  | ':' :: ':' :: rest =>
    if rest = [] then true else parseIPv6Loop 8 rest 0 true
  | _ => parseIPv6Loop 8 s 0 false

/-- The dispatch of `netip.ParseAddr` on the first of `.`, `:` and `%`. -/
def parseAddrScan (whole : List Char) : List Char → Bool
  | [] => false
  | c :: rest =>
    if c = '.' then parseIPv4 whole
    else if c = ':' then
      -- a zone (anything after a percent sign) is refused by net.ParseIP
      if '%' ∈ whole then false else parseIPv6 whole
    else if c = '%' then false
    else parseAddrScan whole rest

/-- Go `net.ParseIP(s) != nil`. -/
def net_ParseIP (s : String) : Bool := parseAddrScan s.data s.data

/-! ## Data model -/

/-- The `taskResult` a task operation returns.  The type is declared outside
`handlers.go`; these are the two fields `handlers.go` reads. -/
structure taskResult where
  Retcode : Int
  Err : String
deriving DecidableEq, Repr

/-- A task descriptor, as `handlers.go` uses it: its `ID` and its two
operations.  The operations belong to an external collaborator; each returns a
`*taskResult`, which may be `nil` (`none`).  The `env` argument of the source is
left out: the configuration is fixed during a call. -/
structure Task where
  ID : String
  Start : String → Nat → Option taskResult
  Stop : String → Option taskResult

/-- The fields of `env.config` that `handlers.go` reads.  `Tasks name` is the
map lookup `env.config.Tasks[name]`; `none` stands for a missing key, where Go
yields the zero-valued descriptor. -/
structure Config where
  UrlPrefix : String
  ExplicitIP : Bool
  RealIPHeader : String
  TimeHandler : String
  Tasks : String → Option Task

/-- The parts of `*http.Request` that `handlers.go` reads: `Path` is
`r.URL.Path`, `Query k` is `r.URL.Query().Get(k)`, `Header k` is
`r.Header.Get(k)` (both empty when absent), `RemoteAddr` is `r.RemoteAddr`. -/
structure Request where
  Path : String
  Query : String → String
  Header : String → String
  RemoteAddr : String

/-- What a handler does besides returning: log lines and task operations, in
order.  Task operations carry the name the task was looked up under. -/
inductive Event where
  | logInfo (msg : String)
  | logErr (msg : String)
  | Start (taskName : String) (ip : String) (ttl : Nat)
  | Stop (taskName : String) (ip : String)
deriving DecidableEq, Repr

/-- How a handler call ends. -/
inductive Outcome where
  /-- A normal return of `(result, genericErr)`; `none` is `nil`. -/
  | returned (result : Option taskResult) (genericErr : Option String)
  /-- The call ended in `log.Fatal(err)`: the process exits. -/
  | fatal (err : NumError)
  /-- A run-time panic (index out of range, nil dereference). -/
  | panicked (reason : String)
  /-- The operation was called on the zero-valued descriptor that the lookup of
  a missing task name yields; what that call does is not determined by
  `handlers.go`. -/
  | zeroTask (taskName : String)
deriving DecidableEq, Repr

/-- The task operations in a trace. -/
def taskCalls (tr : List Event) : List Event :=
  tr.filter fun e =>
    match e with
    | .Start _ _ _ => true
    | .Stop _ _ => true
    | _ => false

/-! ## `taskHandler` -/

/-- Lines 76-86 of `taskHandler`: the TTL string, or the error message. -/
def resolveTTL (cfg : Config) (r : Request) : Except String String :=
  let clientTTL := r.Header "CF-ttl"
  if clientTTL.length = 0 then
    let clientTTL := r.Header "CF-ttl"
    if cfg.TimeHandler ≠ "" then
      let clientTTL := r.Header cfg.TimeHandler
      if clientTTL = "" then .error "Empty real ttl header"
      else .ok clientTTL
    else .ok clientTTL
  else .ok clientTTL

/-- Lines 75 and 87-96 of `taskHandler`: the client IP string, or the error
message. -/
def resolveIP (cfg : Config) (r : Request) : Except String String :=
  let clientIP := r.Query "ip"
  if clientIP.length = 0 ∨ cfg.ExplicitIP = false then
    let clientIP := (strings_Split r.RemoteAddr ':').headD ""
    if cfg.RealIPHeader ≠ "" then
      let clientIP := r.Header cfg.RealIPHeader
      if clientIP = "" then
        .error "Empty real IP header, looks like you misconfigured your reverse-proxy"
      else .ok clientIP
    else .ok clientIP
  else .ok clientIP

/-- Lines 123-126 of `taskHandler`: the check of the operation's result. -/
def finish (t : Task) (tr : List Event) (result : Option taskResult) : List Event × Outcome :=
  match result with
  | none => (tr, .panicked "nil pointer dereference")
  | some res =>
    if res.Retcode ≠ 0 then
      (tr ++ [.logErr ("Failed to execute task \x27" ++ t.ID ++ "\x27: " ++ res.Err)],
        .returned (some res) none)
    else (tr, .returned (some res) none)

/-- Lines 109-126 of `taskHandler`: reading the URL parts, the task lookup and
the dispatch on the action. -/
def dispatch (cfg : Config) (urlParts : List String) (clientIP clientTTL : String)
    (timettl : Nat) : List Event × Outcome :=
  match urlParts[2]? with
  | none => ([], .panicked "index out of range [2]")
  | some action =>
    match urlParts[1]? with
    | none => ([], .panicked "index out of range [1]")
    | some taskName =>
      match cfg.Tasks taskName with
      | none =>
        -- no found test: the zero-valued descriptor, with an empty ID, is logged
        -- and its operation is called
        if action = "on" then
          ([.logInfo ("Starting \x27" ++ "" ++ "\x27 for " ++ clientIP ++ ", ttl " ++ clientTTL),
              .Start taskName clientIP timettl],
            .zeroTask taskName)
        else if action = "off" then
          ([.logInfo ("Stopping \x27" ++ "" ++ "\x27 for " ++ clientIP ++ " by request..."),
              .Stop taskName clientIP],
            .zeroTask taskName)
        else
          ([.logInfo ("No action specified, so starting \x27" ++ "" ++ "\x27 for " ++
                clientIP ++ " and ttl " ++ clientTTL),
              .Start taskName clientIP timettl],
            .zeroTask taskName)
      | some currentTask =>
        if action = "on" then
          finish currentTask
            [.logInfo ("Starting \x27" ++ currentTask.ID ++ "\x27 for " ++ clientIP ++
                ", ttl " ++ clientTTL),
              .Start taskName clientIP timettl]
            (currentTask.Start clientIP timettl)
        else if action = "off" then
          finish currentTask
            [.logInfo ("Stopping \x27" ++ currentTask.ID ++ "\x27 for " ++ clientIP ++
                " by request..."),
              .Stop taskName clientIP]
            (currentTask.Stop clientIP)
        else
          finish currentTask
            [.logInfo ("No action specified, so starting \x27" ++ currentTask.ID ++
                "\x27 for " ++ clientIP ++ " and ttl " ++ clientTTL),
              .Start taskName clientIP timettl]
            (currentTask.Start clientIP timettl)

/-- The function `taskHandler`: the effects of one call and how it ends.
`tbl` is the Unicode case table behind `strings.ToLower`. -/
def taskHandler (tbl : Char → Char) (cfg : Config) (r : Request) : List Event × Outcome :=
  let preparedUrl := strings_TrimPrefix (strings_ToLower tbl r.Path) cfg.UrlPrefix
  let urlParts := strings_Split preparedUrl '/'
  match resolveTTL cfg r with
  | .error e => ([], .returned none (some e))
  | .ok clientTTL =>
    match resolveIP cfg r with
    | .error e => ([], .returned none (some e))
    | .ok clientIP =>
      if net_ParseIP clientIP = false then
        ([], .returned none (some ("Malformed IP: " ++ clientIP)))
      else
        match strconv_ParseUint clientTTL 16 with
        | .error err => ([], .fatal err)
        | .ok tmp =>
          let timettl := tmp % 2 ^ 16
          dispatch cfg urlParts clientIP clientTTL timettl

/-! ## `defaultHandler` -/

/-- The function `defaultHandler`. -/
def defaultHandler (_cfg : Config) (r : Request) : List Event × Outcome :=
  let taskParts := strings_Split r.Path '/'
  match taskParts[1]? with
  | none => ([], .panicked "index out of range [1]")
  | some part =>
    let genericErr :=
      if part = "" then "Looks like you didn\x27t specify a task" else "No such task"
    ([.logErr ("Bad request: \x27" ++ r.Path ++ "\x27: " ++ genericErr)],
      .returned none (some genericErr))

/-! ## `handler.ServeHTTP` -/

/-- What the handler wrote to the `http.ResponseWriter`: the status line, the
headers set by the code and the body. -/
structure Response where
  status : Nat
  header : List (String × String)
  body : String
deriving DecidableEq, Repr

/-- How `ServeHTTP` ends: with a response, or without one when the bound
handler function did not return. -/
inductive Served where
  | responded (resp : Response)
  | aborted (o : Outcome)
deriving DecidableEq, Repr

/-- Go `http.Error(w, error, code)` on a writer whose headers so far are `hdr`:
plain-text content type, the status code, and the message followed by a
newline. -/
def http_Error (hdr : List (String × String)) (error : String) (code : Nat) : Response :=
  { status := code
    header := hdr ++ [("Content-Type", "text/plain; charset=utf-8"),
      ("X-Content-Type-Options", "nosniff")]
    body := error ++ "\n" }

/-- One hexadecimal digit, lower case. -/
def hexDigit (n : Nat) : Char :=
  if n < 10 then Char.ofNat (48 + n) else Char.ofNat (87 + n)

/-- The escaping of one rune inside a JSON string by Go `encoding/json` (HTML
escaping on, as in `json.MarshalIndent`). -/
def jsonEscapeChar (c : Char) : List Char :=
  if c = '"' then ['\\', '"']
  else if c = '\\' then ['\\', '\\']
  else if c = '\n' then ['\\', 'n']
  else if c = '\r' then ['\\', 'r']
  else if c = '\t' then ['\\', 't']
  else if c.toNat = 8 then ['\\', 'b']
  else if c.toNat = 12 then ['\\', 'f']
  else if c.toNat < 32 ∨ c = '<' ∨ c = '>' ∨ c = '&' then
    ['\\', 'u', '0', '0', hexDigit (c.toNat / 16), hexDigit (c.toNat % 16)]
  else if c.toNat = 0x2028 then ['\\', 'u', '2', '0', '2', '8']
  else if c.toNat = 0x2029 then ['\\', 'u', '2', '0', '2', '9']
  else [c]

/-- A Go string as a JSON string literal. -/
def jsonString (s : String) : String :=
  "\"" ++ String.mk (s.data.flatMap jsonEscapeChar) ++ "\""

/-- Modelled from the spec: the declaration of `taskResult` (its fields and
their JSON names) is not in `handlers.go`; the spec gives an integer field
`Retcode` and a string field `Err`, serialized under exactly these names.  This
is `json.MarshalIndent(taskResult, "", "  ")` for that struct. -/
def json_MarshalIndent (res : taskResult) : String :=
  "\x7b\n  \"Retcode\": " ++ toString res.Retcode ++ ",\n  \"Err\": " ++
    jsonString res.Err ++ "\n\x7d"

/-- The method `handler.ServeHTTP`, for the bound handler function `H` (the
field `h.H`) and the configuration in `h.state`. -/
def ServeHTTP (H : Config → Request → List Event × Outcome) (cfg : Config) (r : Request) :
    List Event × Served :=
  let hdr := [("Cache-Control", "no-cache, no-store, must-revalidate")]
  let out := H cfg r
  match out.2 with
  | .returned taskResult genericErr =>
    match genericErr with
    | some e => (out.1, .responded (http_Error hdr ("Request error: " ++ e) 418))
    | none =>
      match taskResult with
      | some res =>
        let body := json_MarshalIndent res
        if res.Retcode ≠ 0 then (out.1, .responded (http_Error hdr body 500))
        else (out.1, .responded { status := 200, header := hdr, body := body })
      | none => (out.1, .responded { status := 200, header := hdr, body := "" })
  | o => (out.1, .aborted o)

/-! ## Specification vocabulary -/

/-- How `taskHandler` ends after a task operation that returned `result`: it
returns that result with a nil error, or panics on a nil result. -/
def returnOf (result : Option taskResult) : Outcome :=
  match result with
  | some res => .returned (some res) none
  | none => .panicked "nil pointer dereference"

/-- The value of a string of decimal digits, most significant digit first. -/
def decValue (ds : List Char) : Nat :=
  ds.foldl (fun acc c => acc * 10 + (c.toNat - 48)) 0

/-- The string `s` is an unsigned decimal numeral of value `n`: one or more
decimal digits. -/
def IsDecimalNumeral (s : String) (n : Nat) : Prop :=
  s.data ≠ [] ∧ (∀ c ∈ s.data, isDecDigit c = true) ∧ decValue s.data = n

/-- One field of a dotted-quad IPv4 literal: one to three decimal digits of
value at most 255, without a leading zero. -/
def IsOctet (ds : List Char) : Prop :=
  ds ≠ [] ∧ (∀ c ∈ ds, isDecDigit c = true) ∧ (1 < ds.length → ds.head? ≠ some '0') ∧
    decValue ds ≤ 255

/-- The string `s` is an IPv4 literal in dotted-quad form. -/
def IsIPv4Literal (s : String) : Prop :=
  ∃ d1 d2 d3 d4, IsOctet d1 ∧ IsOctet d2 ∧ IsOctet d3 ∧ IsOctet d4 ∧
    s.data = d1 ++ '.' :: (d2 ++ '.' :: (d3 ++ '.' :: d4))

/-! ## A sample deployment -/

/-- A task whose operations always succeed. -/
def sampleTask (id : String) : Task :=
  { ID := id, Start := fun _ _ => some ⟨0, ""⟩, Stop := fun _ => some ⟨0, ""⟩ }

/-- A configuration with one task `vpn` under the prefix `/prefix`, no explicit
IP and no override headers. -/
def sampleConfig : Config :=
  { UrlPrefix := "/prefix"
    ExplicitIP := false
    RealIPHeader := ""
    TimeHandler := ""
    Tasks := fun name => if name = "vpn" then some (sampleTask "vpn") else none }

/-- A request to `/prefix/vpn/on` with TTL header `120` from
`203.0.113.5:54321`. -/
def sampleRequest : Request :=
  { Path := "/prefix/vpn/on"
    Query := fun _ => ""
    Header := fun k => if k = "CF-ttl" then "120" else ""
    RemoteAddr := "203.0.113.5:54321" }

/-- A task whose results tell which operation of which task was applied to
which arguments: `Start` returns the TTL as return code and `<id> start <ip>` as
text, `Stop` returns the code 1 and `<id> stop <ip>`. -/
def echoTask (id : String) : Task :=
  { ID := id
    Start := fun ip ttl => some ⟨ttl, id ++ " start " ++ ip⟩
    Stop := fun ip => some ⟨1, id ++ " stop " ++ ip⟩ }

/-- A configuration whose `UrlPrefix` has an upper-case letter, with two tasks,
`vpn` and `prefix`. -/
def upperPrefixConfig : Config :=
  { UrlPrefix := "/Prefix"
    ExplicitIP := false
    RealIPHeader := ""
    TimeHandler := ""
    Tasks := fun name =>
      if name = "vpn" then some (echoTask "vpn")
      else if name = "prefix" then some (echoTask "prefix")
      else none }

/-- A configuration behind a reverse proxy: explicit IPs are trusted and the
real client IP is expected in the header `X-Real-IP`. -/
def proxyConfig : Config :=
  { UrlPrefix := "/prefix"
    ExplicitIP := true
    RealIPHeader := "X-Real-IP"
    TimeHandler := ""
    Tasks := fun name => if name = "vpn" then some (sampleTask "vpn") else none }

/-- A request through the proxy that carries both an `ip` query parameter and the
`X-Real-IP` header. -/
def proxyRequest : Request :=
  { Path := "/prefix/vpn/on"
    Query := fun k => if k = "ip" then "198.51.100.7" else ""
    Header := fun k =>
      if k = "CF-ttl" then "120" else if k = "X-Real-IP" then "203.0.113.5" else ""
    RemoteAddr := "10.0.0.1:40000" }

/-- A request through the proxy with an `ip` query parameter and no `X-Real-IP`
header. -/
def proxyRequestNoHeader : Request :=
  { Path := "/prefix/vpn/on"
    Query := fun k => if k = "ip" then "198.51.100.7" else ""
    Header := fun k => if k = "CF-ttl" then "120" else ""
    RemoteAddr := "10.0.0.1:40000" }

/-- A configuration with both override headers set. -/
def bothHeadersConfig : Config :=
  { UrlPrefix := "/prefix"
    ExplicitIP := false
    RealIPHeader := "X-Real-IP"
    TimeHandler := "X-TTL"
    Tasks := fun name => if name = "vpn" then some (sampleTask "vpn") else none }

/-- A request that carries no header at all. -/
def bareRequest : Request :=
  { Path := "/prefix/vpn/on"
    Query := fun _ => ""
    Header := fun _ => ""
    RemoteAddr := "10.0.0.1:40000" }

/-- The headers of an error response of `ServeHTTP`. -/
def errorHeaders : List (String × String) :=
  [("Cache-Control", "no-cache, no-store, must-revalidate"),
    ("Content-Type", "text/plain; charset=utf-8"),
    ("X-Content-Type-Options", "nosniff")]

/-- The sample request arriving over IPv6 from `[2001:db8::1]:54321`. -/
def ipv6Request : Request :=
  { sampleRequest with RemoteAddr := "[2001:db8::1]:54321" }

/-- The sample request with an `ip` query parameter added. -/
def sampleRequestWithIP : Request :=
  { sampleRequest with Query := fun k => if k = "ip" then "198.51.100.7" else "" }

/-- A handler function that returns both a result and an error. -/
def resultAndErrorHandler (_cfg : Config) (_r : Request) : List Event × Outcome :=
  ([], .returned (some ⟨0, ""⟩) (some "boom"))

/-- The first path segment of a path that begins with a slash: the text between
the leading slash and the next slash or the end. -/
def firstSegment (path : String) : String :=
  String.mk ((path.data.drop 1).takeWhile fun c => decide (c ≠ '/'))

/-- The error message of `defaultHandler` for a given first path segment. -/
def defaultMessage (segment : String) : String :=
  if segment = "" then "Looks like you didn\x27t specify a task" else "No such task"

/-- A task whose operations succeed with return code 0 and still fill in
`Err`. -/
def warningTask : Task :=
  { ID := "vpn", Start := fun _ _ => some ⟨0, "warning"⟩, Stop := fun _ => some ⟨0, "warning"⟩ }

/-- The sample configuration with `vpn` bound to `warningTask`. -/
def warningConfig : Config :=
  { sampleConfig with Tasks := fun name => if name = "vpn" then some warningTask else none }

/-- A handler function that returns a failed result and no error. -/
def failedResultHandler (_cfg : Config) (_r : Request) : List Event × Outcome :=
  ([], .returned (some ⟨3, "no rule"⟩) none)

/-- The sample request with the path `/Prefix/vpn/off`. -/
def upperPrefixOffRequest : Request :=
  { sampleRequest with Path := "/Prefix/vpn/off" }

/-- The sample request with the path `/prefix/VPN/OFF`. -/
def upperCaseOffRequest : Request :=
  { sampleRequest with Path := "/prefix/VPN/OFF" }

/-- The sample request with the TTL header `70000`. -/
def bigTTLRequest : Request :=
  { sampleRequest with
    Path := "/prefix/vpn/off"
    Header := fun k => if k = "CF-ttl" then "70000" else "" }

/-! ## Lemmas on the library functions -/

theorem splitChars_of_not_mem (sep : Char) (l : List Char) (h : sep ∉ l) :
    splitChars sep l = [l] := by
  induction l with
  | nil => rfl
  | cons c cs ih =>
    have hc : c ≠ sep := fun e => h (by simp [e])
    have hcs : sep ∉ cs := fun e => h (by simp [e])
    simp [splitChars, hc, ih hcs]

theorem splitChars_append_sep (sep : Char) (a b : List Char) (h : sep ∉ a) :
    splitChars sep (a ++ sep :: b) = a :: splitChars sep b := by
  induction a with
  | nil => simp [splitChars]
  | cons c cs ih =>
    have hc : c ≠ sep := fun e => h (by simp [e])
    have hcs : sep ∉ cs := fun e => h (by simp [e])
    simp [splitChars, hc, ih hcs]

theorem strings_Split_task_action (task action : String) (ht : '/' ∉ task.data)
    (ha : '/' ∉ action.data) :
    strings_Split ("/" ++ task ++ "/" ++ action) '/' = ["", task, action] := by
  have h1 : ("/" ++ task ++ "/" ++ action).data
      = [] ++ '/' :: (task.data ++ '/' :: action.data) := by
    simp [String.data_append]
  unfold strings_Split
  rw [h1, splitChars_append_sep _ _ _ (by simp), splitChars_append_sep _ _ _ ht,
    splitChars_of_not_mem _ _ ha]
  rfl

theorem foldl_digits_ge (ds : List Char) (v : Nat) :
    v ≤ ds.foldl (fun acc c => acc * 10 + (c.toNat - 48)) v := by
  induction ds generalizing v with
  | nil => simp
  | cons c cs ih =>
    simp only [List.foldl_cons]
    exact le_trans (by omega) (ih (v * 10 + (c.toNat - 48)))

/-- The digit loop of `ParseUint` on a string of digits whose value fits. -/
theorem parseUintLoop_digits (ds : List Char) (v : Nat)
    (hd : ∀ c ∈ ds, isDecDigit c = true)
    (hv : ds.foldl (fun acc c => acc * 10 + (c.toNat - 48)) v ≤ 65535) :
    parseUintLoop 16 ds v = .ok (ds.foldl (fun acc c => acc * 10 + (c.toNat - 48)) v) := by
  induction ds generalizing v with
  | nil => rfl
  | cons c cs ih =>
    have hc : 48 ≤ c.toNat ∧ c.toNat ≤ 57 := by
      have := hd c (by simp)
      simpa [isDecDigit] using this
    have hcs : ∀ c ∈ cs, isDecDigit c = true := fun x hx => hd x (by simp [hx])
    simp only [List.foldl_cons] at hv ⊢
    have hle := foldl_digits_ge cs (v * 10 + (c.toNat - 48))
    have hv1 : v * 10 + (c.toNat - 48) ≤ 65535 := le_trans hle hv
    have e1 : v * 10 % 2 ^ 64 = v * 10 := Nat.mod_eq_of_lt (by norm_num; omega)
    have e2 : (v * 10 + (c.toNat - 48)) % 2 ^ 64 = v * 10 + (c.toNat - 48) :=
      Nat.mod_eq_of_lt (by norm_num; omega)
    have c1 : ¬ v ≥ (2 ^ 64 - 1) / 10 + 1 := by norm_num; omega
    have c2 : ¬ (v * 10 + (c.toNat - 48) < v * 10 ∨ v * 10 + (c.toNat - 48) > 2 ^ 16 - 1) := by
      norm_num; omega
    rw [parseUintLoop]
    simp only [hc, and_self, if_true, c1, if_false, e1, e2, c2]
    exact ih _ hcs hv

/-- `ParseUint(s, 10, 16)` accepts every decimal numeral of value at most
65535 and returns its value. -/
theorem strconv_ParseUint_numeral (s : String) (n : Nat) (h : IsDecimalNumeral s n)
    (hn : n ≤ 65535) : strconv_ParseUint s 16 = .ok n := by
  obtain ⟨hne, hd, hval⟩ := h
  unfold strconv_ParseUint
  rw [if_neg hne]
  unfold decValue at hval
  rw [parseUintLoop_digits s.data 0 hd (by rw [hval]; exact hn), hval]

/-- A value returned by the digit loop with bit size 16 fits in 16 bits. -/
theorem parseUintLoop_lt (ds : List Char) (v n : Nat) (hv : v < 2 ^ 16)
    (h : parseUintLoop 16 ds v = .ok n) : n < 2 ^ 16 := by
  induction ds generalizing v with
  | nil =>
    simp only [parseUintLoop] at h
    cases h
    exact hv
  | cons c cs ih =>
    rw [parseUintLoop] at h
    split at h
    · simp only at h
      split at h
      · cases h
      · split at h
        · cases h
        · rename_i hcond
          refine ih _ ?_ h
          have : ¬ ((v * 10 % 2 ^ 64 + (c.toNat - 48)) % 2 ^ 64 > 2 ^ 16 - 1) :=
            fun hh => hcond (Or.inr hh)
          norm_num at this ⊢
          omega
    · cases h

/-- A value returned by `ParseUint(s, 10, 16)` is unchanged by `uint16(...)`. -/
theorem strconv_ParseUint_lt (s : String) (n : Nat) (h : strconv_ParseUint s 16 = .ok n) :
    n % 2 ^ 16 = n := by
  unfold strconv_ParseUint at h
  split at h
  · cases h
  · exact Nat.mod_eq_of_lt (parseUintLoop_lt _ 0 n (by norm_num) h)

/-- A decimal digit is none of the characters `.`, `:`, `%`, `/`. -/
theorem isDecDigit_ne (c : Char) (h : isDecDigit c = true) :
    c ≠ '.' ∧ c ≠ ':' ∧ c ≠ '%' := by
  refine ⟨?_, ?_, ?_⟩ <;>
  · intro e
    subst e
    revert h
    decide

theorem parseIPv4Fields_digits (ds rest : List Char) (val digLen pos : Nat)
    (hd : ∀ c ∈ ds, isDecDigit c = true) (hlen : 1 ≤ digLen) (hz : digLen = 1 → val ≠ 0)
    (hv : ds.foldl (fun acc c => acc * 10 + (c.toNat - 48)) val ≤ 255) :
    parseIPv4Fields (ds ++ rest) false false val digLen pos =
      parseIPv4Fields rest false false
        (ds.foldl (fun acc c => acc * 10 + (c.toNat - 48)) val) (digLen + ds.length) pos := by
  induction ds generalizing val digLen with
  | nil => rfl
  | cons c cs ih =>
    have hc : isDecDigit c = true := hd c (by simp)
    have hcs : ∀ c ∈ cs, isDecDigit c = true := fun x hx => hd x (by simp [hx])
    simp only [List.foldl_cons] at hv ⊢
    have hle := foldl_digits_ge cs (val * 10 + (c.toNat - 48))
    have hv1 : ¬ val * 10 + (c.toNat - 48) > 255 := by omega
    have hz1 : ¬ (digLen = 1 ∧ val = 0) := fun h => hz h.1 h.2
    rw [List.cons_append, parseIPv4Fields]
    simp only [hc, if_true, hz1, if_false, hv1]
    rw [ih _ _ hcs (by omega) (by omega) hv]
    simp only [List.length_cons]
    congr 1
    omega

/-- One octet of a dotted quad is consumed by the field loop. -/
theorem parseIPv4Fields_octet (d rest : List Char) (first prevDot : Bool) (pos : Nat)
    (h : IsOctet d) :
    parseIPv4Fields (d ++ rest) first prevDot 0 0 pos =
      parseIPv4Fields rest false false (decValue d) d.length pos := by
  obtain ⟨hne, hd, hlead, hval⟩ := h
  cases d with
  | nil => exact absurd rfl hne
  | cons c cs =>
    have hc : isDecDigit c = true := hd c (by simp)
    have hcs : ∀ c ∈ cs, isDecDigit c = true := fun x hx => hd x (by simp [hx])
    unfold decValue at hval ⊢
    simp only [List.foldl_cons, Nat.zero_mul, Nat.zero_add] at hval ⊢
    have hle := foldl_digits_ge cs (c.toNat - 48)
    have hv1 : ¬ c.toNat - 48 > 255 := by omega
    rw [List.cons_append, parseIPv4Fields]
    simp only [hc, if_true, Nat.zero_mul, Nat.zero_add, hv1, if_false]
    cases cs with
    | nil => rfl
    | cons c2 cs2 =>
      have hc0 : c ≠ '0' := by
        intro e
        exact hlead (by simp) (by simp [e])
      have hnz : c.toNat - 48 ≠ 0 := by
        intro e
        apply hc0
        have h48 : 48 ≤ c.toNat ∧ c.toNat ≤ 57 := by simpa [isDecDigit] using hc
        have : c.toNat = 48 := by omega
        rw [← Char.ofNat_toNat c, this]
      rw [parseIPv4Fields_digits (c2 :: cs2) rest (c.toNat - 48) 1 pos hcs (le_refl 1)
        (fun _ => hnz) hval]
      have hl : (c :: c2 :: cs2).length = 1 + (c2 :: cs2).length := by
        simp only [List.length_cons]
        omega
      rw [hl]
      simp

/-- After an octet, a dot that is followed by more input opens the next field. -/
theorem parseIPv4Fields_dot (rest : List Char) (val digLen pos : Nat) (hrest : rest ≠ [])
    (hpos : pos ≠ 3) :
    parseIPv4Fields ('.' :: rest) false false val digLen pos =
      parseIPv4Fields rest false true 0 0 (pos + 1) := by
  rw [parseIPv4Fields]
  have h1 : isDecDigit '.' = false := by decide
  simp [h1, hrest, hpos]

theorem IsOctet.ne_nil {d : List Char} (h : IsOctet d) : d ≠ [] := h.1

/-- The IPv4 parser accepts every dotted-quad literal. -/
theorem parseIPv4_of_literal (d1 d2 d3 d4 : List Char) (h1 : IsOctet d1) (h2 : IsOctet d2)
    (h3 : IsOctet d3) (h4 : IsOctet d4) :
    parseIPv4 (d1 ++ '.' :: (d2 ++ '.' :: (d3 ++ '.' :: d4))) = true := by
  unfold parseIPv4
  rw [parseIPv4Fields_octet d1 _ _ _ _ h1, parseIPv4Fields_dot _ _ _ _ (by simp) (by decide),
    parseIPv4Fields_octet d2 _ _ _ _ h2, parseIPv4Fields_dot _ _ _ _ (by simp) (by decide),
    parseIPv4Fields_octet d3 _ _ _ _ h3,
    parseIPv4Fields_dot _ _ _ _ h4.ne_nil (by decide)]
  have e : d4 = d4 ++ [] := by simp
  rw [e, parseIPv4Fields_octet d4 _ _ _ _ h4]
  rfl

theorem parseAddrScan_digits_dot (whole ds rest : List Char)
    (hd : ∀ c ∈ ds, isDecDigit c = true) :
    parseAddrScan whole (ds ++ '.' :: rest) = parseIPv4 whole := by
  induction ds with
  | nil => simp [parseAddrScan]
  | cons c cs ih =>
    have hc := isDecDigit_ne c (hd c (by simp))
    have hcs : ∀ c ∈ cs, isDecDigit c = true := fun x hx => hd x (by simp [hx])
    rw [List.cons_append, parseAddrScan]
    simp only [hc.1, hc.2.1, hc.2.2, if_false]
    exact ih hcs

/-- `net.ParseIP` accepts every dotted-quad IPv4 literal. -/
theorem net_ParseIP_of_IPv4Literal (a : String) (h : IsIPv4Literal a) :
    net_ParseIP a = true := by
  obtain ⟨d1, d2, d3, d4, h1, h2, h3, h4, e⟩ := h
  unfold net_ParseIP
  rw [e, parseAddrScan_digits_dot _ d1 _ h1.2.1]
  exact parseIPv4_of_literal d1 d2 d3 d4 h1 h2 h3 h4

/-- A dotted-quad IPv4 literal contains no colon. -/
theorem colon_not_mem_of_IPv4Literal (a : String) (h : IsIPv4Literal a) : ':' ∉ a.data := by
  obtain ⟨d1, d2, d3, d4, h1, h2, h3, h4, e⟩ := h
  have hn : ∀ d, IsOctet d → ':' ∉ d := fun d hd hm =>
    (isDecDigit_ne ':' (hd.2.1 _ hm)).2.1 rfl
  rw [e]
  simp [hn d1 h1, hn d2 h2, hn d3 h3, hn d4 h4]

/-- Cutting `<a>:<port>` at the first colon yields `<a>` when `<a>` has none. -/
theorem strings_Split_remote (a port : String) (h : ':' ∉ a.data) :
    (strings_Split (a ++ ":" ++ port) ':').headD "" = a := by
  have h1 : (a ++ ":" ++ port).data = a.data ++ ':' :: port.data := by
    simp [String.data_append]
  unfold strings_Split
  rw [h1, splitChars_append_sep _ _ _ h]
  rfl

theorem strings_ToLower_append (tbl : Char → Char) (a b : String) :
    strings_ToLower tbl (a ++ b) = strings_ToLower tbl a ++ strings_ToLower tbl b := by
  apply String.ext
  simp [strings_ToLower, String.data_append]

theorem strings_TrimPrefix_append (p x : String) : strings_TrimPrefix (p ++ x) p = x := by
  unfold strings_TrimPrefix
  have h : p.data.isPrefixOf (p ++ x).data = true := by
    rw [List.isPrefixOf_iff_prefix, String.data_append]
    exact List.prefix_append _ _
  rw [if_pos h]
  apply String.ext
  simp [String.data_append]

/-! ## Lemmas on `taskHandler` -/

/-- Checking the result adds no task operation to the trace. -/
theorem taskCalls_finish (t : Task) (tr : List Event) (result : Option taskResult) :
    taskCalls (finish t tr result).1 = taskCalls tr := by
  unfold finish
  cases result with
  | none => rfl
  | some res =>
    by_cases h : res.Retcode ≠ 0
    · simp [h, taskCalls, List.filter_append]
    · simp [h]

/-- The task operations of a dispatch on a path `/<task>/<action>` of a
configured task. -/
theorem taskCalls_dispatch (cfg : Config) (task action ip ttlStr : String) (n : Nat) (t : Task)
    (hcfg : cfg.Tasks task = some t) :
    taskCalls (dispatch cfg ["", task, action] ip ttlStr n).1 =
      if action = "off" then [Event.Stop task ip] else [Event.Start task ip n] := by
  unfold dispatch
  simp only [List.getElem?_cons_succ, List.getElem?_cons_zero, hcfg, apply_ite Prod.fst,
    apply_ite taskCalls, taskCalls_finish]
  by_cases hon : action = "on"
  · subst hon
    simp [taskCalls]
  · by_cases hoff : action = "off"
    · subst hoff
      simp [taskCalls]
    · simp [hon, hoff, taskCalls]

/-- Unfolding of `taskHandler` once the TTL string and the client IP are
resolved, the IP validates and the TTL parses. -/
theorem taskHandler_resolved (tbl : Char → Char) (cfg : Config) (r : Request)
    (ip ttlStr : String) (n : Nat)
    (httl : resolveTTL cfg r = .ok ttlStr) (hip : resolveIP cfg r = .ok ip)
    (hvalid : net_ParseIP ip = true) (hparse : strconv_ParseUint ttlStr 16 = .ok n) :
    taskHandler tbl cfg r =
      dispatch cfg (strings_Split (strings_TrimPrefix (strings_ToLower tbl r.Path) cfg.UrlPrefix) '/')
        ip ttlStr n := by
  unfold taskHandler
  simp only [httl, hip, hvalid, hparse, strconv_ParseUint_lt ttlStr n hparse]
  simp

/-- The TTL string is the default header when that header is not empty. -/
theorem resolveTTL_default (cfg : Config) (r : Request) (h : (r.Header "CF-ttl").data ≠ []) :
    resolveTTL cfg r = .ok (r.Header "CF-ttl") := by
  unfold resolveTTL
  have hl : ¬ (r.Header "CF-ttl").length = 0 := by
    intro e
    exact h (List.length_eq_zero.mp e)
  simp only [hl, if_false]

theorem string_length_eq_zero_iff (s : String) : s.length = 0 ↔ s = "" := by
  constructor
  · intro h
    apply String.ext
    exact List.length_eq_zero.mp h
  · intro h
    rw [h]
    rfl

/-- When the query IP is not used and no `RealIPHeader` is configured, the
client IP is the remote address up to its first colon. -/
theorem resolveIP_remote (cfg : Config) (r : Request)
    (hgate : cfg.ExplicitIP = false ∨ r.Query "ip" = "") (hR : cfg.RealIPHeader = "") :
    resolveIP cfg r = .ok ((strings_Split r.RemoteAddr ':').headD "") := by
  unfold resolveIP
  have hg : (r.Query "ip").length = 0 ∨ cfg.ExplicitIP = false := by
    rcases hgate with h | h
    · exact Or.inr h
    · exact Or.inl ((string_length_eq_zero_iff _).mpr h)
  simp only [hg, if_true, hR, ne_eq, not_true_eq_false, if_false]

/-- When the query IP is not used and a `RealIPHeader` is configured, the
client IP is the value of that header, and an empty value is an error. -/
theorem resolveIP_header (cfg : Config) (r : Request)
    (hgate : cfg.ExplicitIP = false ∨ r.Query "ip" = "") (hR : cfg.RealIPHeader ≠ "") :
    resolveIP cfg r =
      if r.Header cfg.RealIPHeader = "" then
        .error "Empty real IP header, looks like you misconfigured your reverse-proxy"
      else .ok (r.Header cfg.RealIPHeader) := by
  unfold resolveIP
  have hg : (r.Query "ip").length = 0 ∨ cfg.ExplicitIP = false := by
    rcases hgate with h | h
    · exact Or.inr h
    · exact Or.inl ((string_length_eq_zero_iff _).mpr h)
  simp only [hg, if_true, hR, ne_eq, not_false_eq_true]

/-- With `ExplicitIP` enabled and a non-empty `ip` query parameter, the client
IP is the query parameter. -/
theorem resolveIP_query (cfg : Config) (r : Request) (hE : cfg.ExplicitIP = true)
    (hq : r.Query "ip" ≠ "") : resolveIP cfg r = .ok (r.Query "ip") := by
  unfold resolveIP
  have hg : ¬ ((r.Query "ip").length = 0 ∨ cfg.ExplicitIP = false) := by
    rintro (h | h)
    · exact hq ((string_length_eq_zero_iff _).mp h)
    · rw [hE] at h
      cases h
  simp only [hg, if_false]

/-- The TTL string, by cases on the headers. -/
theorem resolveTTL_eq (cfg : Config) (r : Request) :
    resolveTTL cfg r =
      if r.Header "CF-ttl" ≠ "" then .ok (r.Header "CF-ttl")
      else if cfg.TimeHandler = "" then .ok (r.Header "CF-ttl")
      else if r.Header cfg.TimeHandler = "" then .error "Empty real ttl header"
      else .ok (r.Header cfg.TimeHandler) := by
  unfold resolveTTL
  by_cases h : r.Header "CF-ttl" = ""
  · have hl : (r.Header "CF-ttl").length = 0 := (string_length_eq_zero_iff _).mpr h
    by_cases hT : cfg.TimeHandler = ""
    · simp [hl, h, hT]
    · simp [hl, h, hT]
  · have hl : ¬ (r.Header "CF-ttl").length = 0 := fun e =>
      h ((string_length_eq_zero_iff _).mp e)
    simp [hl, h]

/-- Every task operation of a dispatch carries the given client IP. -/
theorem taskCalls_dispatch_ip (cfg : Config) (urlParts : List String) (ip ttlStr : String)
    (n : Nat) (e : Event) (he : e ∈ taskCalls (dispatch cfg urlParts ip ttlStr n).1) :
    ∃ name, e = Event.Start name ip n ∨ e = Event.Stop name ip := by
  unfold dispatch at he
  split at he
  · simp [taskCalls] at he
  · split at he
    · simp [taskCalls] at he
    · rename_i taskName _
      split at he
      · refine ⟨taskName, ?_⟩
        split at he
        · simp [taskCalls] at he
          exact Or.inl he
        · split at he
          · simp [taskCalls] at he
            exact Or.inr he
          · simp [taskCalls] at he
            exact Or.inl he
      · refine ⟨taskName, ?_⟩
        simp only [apply_ite Prod.fst, apply_ite taskCalls, taskCalls_finish] at he
        split at he
        · simp [taskCalls] at he
          exact Or.inl he
        · split at he
          · simp [taskCalls] at he
            exact Or.inr he
          · simp [taskCalls] at he
            exact Or.inl he

/-- Every task operation of `taskHandler` carries the resolved client IP, and
that IP has passed validation. -/
theorem taskCalls_taskHandler_ip (tbl : Char → Char) (cfg : Config) (r : Request) (e : Event)
    (he : e ∈ taskCalls (taskHandler tbl cfg r).1) :
    ∃ ip, resolveIP cfg r = .ok ip ∧ net_ParseIP ip = true ∧
      ∃ name ttl, e = Event.Start name ip ttl ∨ e = Event.Stop name ip := by
  unfold taskHandler at he
  simp only at he
  split at he
  · simp [taskCalls] at he
  · split at he
    · simp [taskCalls] at he
    · rename_i ip hip
      split at he
      · simp [taskCalls] at he
      · rename_i hvalid
        split at he
        · simp [taskCalls] at he
        · rename_i tmp _
          obtain ⟨name, hname⟩ := taskCalls_dispatch_ip _ _ _ _ _ e he
          exact ⟨ip, hip, by simpa using hvalid, name, tmp % 2 ^ 16, hname⟩

/-- The task operations on a path `/<task>/on` of a configured task. -/
theorem taskCalls_path_on (tbl : Char → Char) (cfg : Config) (r : Request)
    (task ip ttlStr : String) (n : Nat) (t : Task)
    (hpath : strings_TrimPrefix (strings_ToLower tbl r.Path) cfg.UrlPrefix
      = "/" ++ task ++ "/" ++ "on")
    (htask : '/' ∉ task.data)
    (hcfg : cfg.Tasks task = some t)
    (httl : resolveTTL cfg r = .ok ttlStr) (hip : resolveIP cfg r = .ok ip)
    (hvalid : net_ParseIP ip = true) (hparse : strconv_ParseUint ttlStr 16 = .ok n) :
    taskCalls (taskHandler tbl cfg r).1 = [Event.Start task ip n] := by
  rw [taskHandler_resolved tbl cfg r ip ttlStr n httl hip hvalid hparse, hpath,
    strings_Split_task_action task "on" htask (by decide),
    taskCalls_dispatch cfg task "on" ip ttlStr n t hcfg]
  simp

/-! ## Lemmas for the TTL, the default route and the response -/

/-- A value the digit loop returns comes from a string of digits, is the value
of these digits and fits in 16 bits. -/
theorem parseUintLoop_ok_inv (ds : List Char) (v n : Nat) (hv : v ≤ 65535)
    (h : parseUintLoop 16 ds v = .ok n) :
    (∀ c ∈ ds, isDecDigit c = true) ∧
      ds.foldl (fun acc c => acc * 10 + (c.toNat - 48)) v = n ∧ n ≤ 65535 := by
  induction ds generalizing v with
  | nil =>
    simp only [parseUintLoop] at h
    cases h
    exact ⟨by simp, rfl, hv⟩
  | cons c cs ih =>
    rw [parseUintLoop] at h
    split at h
    · rename_i hc
      simp only at h
      split at h
      · cases h
      · split at h
        · cases h
        · rename_i hcond
          have hb : ¬ ((v * 10 % 2 ^ 64 + (c.toNat - 48)) % 2 ^ 64 > 2 ^ 16 - 1) :=
            fun hh => hcond (Or.inr hh)
          have e1 : v * 10 % 2 ^ 64 = v * 10 := Nat.mod_eq_of_lt (by norm_num; omega)
          have e2 : (v * 10 + (c.toNat - 48)) % 2 ^ 64 = v * 10 + (c.toNat - 48) :=
            Nat.mod_eq_of_lt (by norm_num; omega)
          rw [e1, e2] at h hb
          obtain ⟨hd, hval, hn⟩ := ih (v * 10 + (c.toNat - 48)) (by norm_num at hb; omega) h
          refine ⟨?_, ?_, hn⟩
          · intro x hx
            rcases List.mem_cons.mp hx with hx | hx
            · rw [hx]
              simpa [isDecDigit] using hc
            · exact hd x hx
          · simpa [List.foldl_cons] using hval
    · cases h

/-- `ParseUint(s, 10, 16)` succeeds with `n` exactly when `s` is a decimal
numeral of value `n` and `n` is at most 65535. -/
theorem strconv_ParseUint_ok_iff (s : String) (n : Nat) :
    strconv_ParseUint s 16 = .ok n ↔ IsDecimalNumeral s n ∧ n ≤ 65535 := by
  constructor
  · intro h
    unfold strconv_ParseUint at h
    split at h
    · cases h
    · rename_i hne
      obtain ⟨hd, hval, hn⟩ := parseUintLoop_ok_inv s.data 0 n (by omega) h
      exact ⟨⟨hne, hd, hval⟩, hn⟩
  · intro h
    exact strconv_ParseUint_numeral s n h.1 h.2

/-- The first piece of a split is the text before the first separator. -/
theorem splitChars_head (sep : Char) (l : List Char) :
    ∃ tl, splitChars sep l = (l.takeWhile fun c => decide (c ≠ sep)) :: tl := by
  induction l with
  | nil => exact ⟨[], rfl⟩
  | cons c cs ih =>
    obtain ⟨tl, htl⟩ := ih
    by_cases hc : c = sep
    · exact ⟨splitChars sep cs, by simp [splitChars, hc]⟩
    · exact ⟨tl, by simp [splitChars, hc, htl]⟩

/-- For a path that begins with a slash, piece 1 of the split on slashes is the
first path segment. -/
theorem strings_Split_firstSegment (path rest : String) (h : path = "/" ++ rest) :
    (strings_Split path '/')[1]? = some (firstSegment path) := by
  subst h
  have h1 : ("/" ++ rest).data = '/' :: rest.data := by simp [String.data_append]
  obtain ⟨tl, htl⟩ := splitChars_head '/' rest.data
  unfold strings_Split firstSegment
  rw [h1]
  simp [splitChars, htl]

/-- A dispatch does not end in `log.Fatal`. -/
theorem dispatch_ne_fatal (cfg : Config) (urlParts : List String) (ip ttlStr : String) (n : Nat)
    (err : NumError) : (dispatch cfg urlParts ip ttlStr n).2 ≠ .fatal err := by
  have hf : ∀ t tr res, (finish t tr res).2 ≠ .fatal err := by
    intro t tr res
    unfold finish
    cases res with
    | none => simp
    | some x => by_cases hx : x.Retcode ≠ 0 <;> simp [hx]
  unfold dispatch
  split
  · simp
  · split
    · simp
    · split
      · split
        · simp
        · split
          · simp
          · simp
      · split
        · exact hf _ _ _
        · split
          · exact hf _ _ _
          · exact hf _ _ _

/-- A dispatch that returns, returns a result of one of the two operations of a
configured task, called with the given IP and TTL, and no error. -/
theorem dispatch_returned (cfg : Config) (urlParts : List String) (ip ttlStr : String) (n : Nat)
    (res : Option taskResult) (e : Option String)
    (h : (dispatch cfg urlParts ip ttlStr n).2 = .returned res e) :
    e = none ∧ ∃ name t x, res = some x ∧ cfg.Tasks name = some t ∧
      (t.Start ip n = some x ∨ t.Stop ip = some x) := by
  have hf : ∀ (t : Task) tr (o : Option taskResult), (finish t tr o).2 = .returned res e →
      e = none ∧ ∃ x, res = some x ∧ o = some x := by
    intro t tr o ho
    unfold finish at ho
    cases o with
    | none => simp at ho
    | some x =>
      by_cases hx : x.Retcode ≠ 0
      · simp [hx] at ho
        exact ⟨ho.2.symm, x, ho.1.symm, rfl⟩
      · simp [hx] at ho
        exact ⟨ho.2.symm, x, ho.1.symm, rfl⟩
  unfold dispatch at h
  split at h
  · simp at h
  · split at h
    · simp at h
    · rename_i taskName _
      split at h
      · split at h
        · simp at h
        · split at h
          · simp at h
          · simp at h
      · rename_i t ht
        split at h
        · obtain ⟨he, x, hx, ho⟩ := hf _ _ _ h
          exact ⟨he, taskName, t, x, hx, ht, Or.inl ho⟩
        · split at h
          · obtain ⟨he, x, hx, ho⟩ := hf _ _ _ h
            exact ⟨he, taskName, t, x, hx, ht, Or.inr ho⟩
          · obtain ⟨he, x, hx, ho⟩ := hf _ _ _ h
            exact ⟨he, taskName, t, x, hx, ht, Or.inl ho⟩

/-- No rune is escaped to nothing. -/
theorem jsonEscapeChar_ne_nil (c : Char) : jsonEscapeChar c ≠ [] := by
  unfold jsonEscapeChar
  repeat' split
  all_goals simp

/-- The JSON string literal of `s` is the empty literal exactly when `s` is
empty. -/
theorem jsonString_eq_empty_iff (s : String) : jsonString s = "\"\"" ↔ s = "" := by
  constructor
  · intro h
    have hd := congrArg String.data h
    unfold jsonString at hd
    simp only [String.data_append] at hd
    have h2 : s.data.flatMap jsonEscapeChar = [] := by
      cases hx : s.data.flatMap jsonEscapeChar with
      | nil => rfl
      | cons a as =>
        rw [hx] at hd
        have hl := congrArg List.length hd
        simp at hl
    apply String.ext
    cases hs : s.data with
    | nil => rfl
    | cons c cs =>
      rw [hs] at h2
      simp only [List.flatMap_cons, List.append_eq_nil] at h2
      exact absurd h2.1 (jsonEscapeChar_ne_nil c)
  · intro h
    rw [h]
    rfl

/-- The three ways a call of `taskHandler` can go: a resolution error with an
empty trace, `log.Fatal` with an empty trace, or the dispatch on resolved and
validated values. -/
theorem taskHandler_cases (tbl : Char → Char) (cfg : Config) (r : Request) :
    (∃ e, taskHandler tbl cfg r = ([], .returned none (some e))) ∨
    (∃ err, taskHandler tbl cfg r = ([], .fatal err)) ∨
    (∃ ip ttlStr n, resolveTTL cfg r = .ok ttlStr ∧ resolveIP cfg r = .ok ip ∧
      net_ParseIP ip = true ∧ strconv_ParseUint ttlStr 16 = .ok n ∧
      taskHandler tbl cfg r =
        dispatch cfg
          (strings_Split (strings_TrimPrefix (strings_ToLower tbl r.Path) cfg.UrlPrefix) '/')
          ip ttlStr n) := by
  cases httl : resolveTTL cfg r with
  | error e =>
    left
    exact ⟨e, by unfold taskHandler; simp only [httl]⟩
  | ok ttlStr =>
    cases hip : resolveIP cfg r with
    | error e =>
      left
      exact ⟨e, by unfold taskHandler; simp only [httl, hip]⟩
    | ok ip =>
      by_cases hvalid : net_ParseIP ip = false
      · left
        exact ⟨"Malformed IP: " ++ ip, by unfold taskHandler; simp only [httl, hip, hvalid, if_true]⟩
      · have hv : net_ParseIP ip = true := by simpa using hvalid
        cases hparse : strconv_ParseUint ttlStr 16 with
        | error err =>
          right
          left
          exact ⟨err, by unfold taskHandler; simp [httl, hip, hv, hparse]⟩
        | ok n =>
          right
          right
          exact ⟨ip, ttlStr, n, rfl, rfl, hv, hparse,
            taskHandler_resolved tbl cfg r ip ttlStr n httl hip hv hparse⟩

/-- How checking the result ends: with the result returned, or a panic on a nil
result. -/
theorem finish_outcome (t : Task) (tr : List Event) (result : Option taskResult) :
    (finish t tr result).2 = returnOf result := by
  unfold finish returnOf
  cases result with
  | none => rfl
  | some res => by_cases h : res.Retcode ≠ 0 <;> simp [h]

/-- The task operations of a dispatch on the URL parts of `/<task>/<action>`,
whether or not `<task>` is a key of `Tasks`. -/
theorem taskCalls_dispatch_any (cfg : Config) (task action ip ttlStr : String) (n : Nat) :
    taskCalls (dispatch cfg ["", task, action] ip ttlStr n).1 =
      if action = "off" then [Event.Stop task ip] else [Event.Start task ip n] := by
  cases hcfg : cfg.Tasks task with
  | some t => exact taskCalls_dispatch cfg task action ip ttlStr n t hcfg
  | none =>
    unfold dispatch
    simp only [List.getElem?_cons_succ, List.getElem?_cons_zero, hcfg]
    by_cases hon : action = "on"
    · subst hon
      simp [taskCalls]
    · by_cases hoff : action = "off"
      · subst hoff
        simp [taskCalls]
      · simp [hon, hoff, taskCalls]

/-- How a dispatch on the URL parts of `/<task>/<action>` ends for a configured
task: with what the application of its `Stop` (action `off`) or of its `Start`
(any other action) returned. -/
theorem dispatch_outcome (cfg : Config) (task action ip ttlStr : String) (n : Nat) (t : Task)
    (hcfg : cfg.Tasks task = some t) :
    (dispatch cfg ["", task, action] ip ttlStr n).2 =
      returnOf (if action = "off" then t.Stop ip else t.Start ip n) := by
  unfold dispatch
  simp only [List.getElem?_cons_succ, List.getElem?_cons_zero, hcfg]
  by_cases hon : action = "on"
  · subst hon
    simp [finish_outcome]
  · by_cases hoff : action = "off"
    · subst hoff
      simp [finish_outcome]
    · simp [hon, hoff, finish_outcome]

/-! ## The claims -/

/-- C1: for a request whose TTL string and client IP resolve, whose IP validates
and whose TTL parses to `n`, and whose path after prefix-stripping is
`/<task>/<action>`: action `on` makes `taskHandler` invoke exactly `Start(ip, n)`
and no `Stop`, action `off` exactly `Stop(ip)` and no `Start`, and any other
action, the empty one included, exactly `Start(ip, n)`.  The operation invoked
is that of the task configured under `<task>`: `taskHandler` ends with what this
application returned. -/
theorem C1_action_dispatch (tbl : Char → Char) (cfg : Config) (r : Request)
    (task action ip ttlStr : String) (n : Nat)
    (hpath : strings_TrimPrefix (strings_ToLower tbl r.Path) cfg.UrlPrefix
      = "/" ++ task ++ "/" ++ action)
    (htask : '/' ∉ task.data) (hact : '/' ∉ action.data)
    (httl : resolveTTL cfg r = .ok ttlStr) (hip : resolveIP cfg r = .ok ip)
    (hvalid : net_ParseIP ip = true) (hparse : strconv_ParseUint ttlStr 16 = .ok n) :
    (action = "on" →
      taskCalls (taskHandler tbl cfg r).1 = [Event.Start task ip n] ∧
      ∀ t, cfg.Tasks task = some t → (taskHandler tbl cfg r).2 = returnOf (t.Start ip n)) ∧
    (action = "off" →
      taskCalls (taskHandler tbl cfg r).1 = [Event.Stop task ip] ∧
      ∀ t, cfg.Tasks task = some t → (taskHandler tbl cfg r).2 = returnOf (t.Stop ip)) ∧
    (action ≠ "on" → action ≠ "off" →
      taskCalls (taskHandler tbl cfg r).1 = [Event.Start task ip n] ∧
      ∀ t, cfg.Tasks task = some t → (taskHandler tbl cfg r).2 = returnOf (t.Start ip n)) := by
  rw [taskHandler_resolved tbl cfg r ip ttlStr n httl hip hvalid hparse, hpath,
    strings_Split_task_action task action htask hact,
    taskCalls_dispatch_any cfg task action ip ttlStr n]
  refine ⟨?_, ?_, ?_⟩
  · intro h
    subst h
    refine ⟨by simp, fun t hcfg => ?_⟩
    unfold dispatch
    simp only [List.getElem?_cons_succ, List.getElem?_cons_zero, hcfg]
    simp [finish_outcome]
  · intro h
    subst h
    refine ⟨by simp, fun t hcfg => ?_⟩
    unfold dispatch
    simp only [List.getElem?_cons_succ, List.getElem?_cons_zero, hcfg]
    simp [finish_outcome]
  · intro hon hoff
    refine ⟨by simp [hoff], fun t hcfg => ?_⟩
    unfold dispatch
    simp only [List.getElem?_cons_succ, List.getElem?_cons_zero, hcfg]
    simp [hon, hoff, finish_outcome]

/-- Witness of C1 on the sample deployment: `/prefix/vpn/on`. -/
theorem C1_action_dispatch_witness :
    ("on" = "on" →
      taskCalls (taskHandler id sampleConfig sampleRequest).1
        = [Event.Start "vpn" "203.0.113.5" 120] ∧
      ∀ t, sampleConfig.Tasks "vpn" = some t →
        (taskHandler id sampleConfig sampleRequest).2 = returnOf (t.Start "203.0.113.5" 120)) ∧
    ("on" = "off" →
      taskCalls (taskHandler id sampleConfig sampleRequest).1
        = [Event.Stop "vpn" "203.0.113.5"] ∧
      ∀ t, sampleConfig.Tasks "vpn" = some t →
        (taskHandler id sampleConfig sampleRequest).2 = returnOf (t.Stop "203.0.113.5")) ∧
    ("on" ≠ "on" → "on" ≠ "off" →
      taskCalls (taskHandler id sampleConfig sampleRequest).1
        = [Event.Start "vpn" "203.0.113.5" 120] ∧
      ∀ t, sampleConfig.Tasks "vpn" = some t →
        (taskHandler id sampleConfig sampleRequest).2 = returnOf (t.Start "203.0.113.5" 120)) :=
  C1_action_dispatch id sampleConfig sampleRequest "vpn" "on" "203.0.113.5" "120" 120
    (by decide) (by decide) (by decide) rfl rfl (by decide) rfl

/-- A path `/<task>` without a second slash makes `taskHandler` panic on
`urlParts[2]` once IP and TTL are resolved: no task operation, no return. -/
theorem taskHandler_no_action_segment (tbl : Char → Char) (cfg : Config) (r : Request)
    (task ip ttlStr : String) (n : Nat)
    (hpath : strings_TrimPrefix (strings_ToLower tbl r.Path) cfg.UrlPrefix = "/" ++ task)
    (htask : '/' ∉ task.data)
    (httl : resolveTTL cfg r = .ok ttlStr) (hip : resolveIP cfg r = .ok ip)
    (hvalid : net_ParseIP ip = true) (hparse : strconv_ParseUint ttlStr 16 = .ok n) :
    taskHandler tbl cfg r = ([], .panicked "index out of range [2]") := by
  have hsplit : strings_Split ("/" ++ task) '/' = ["", task] := by
    have h1 : ("/" ++ task).data = [] ++ '/' :: task.data := by simp [String.data_append]
    unfold strings_Split
    rw [h1, splitChars_append_sep _ _ _ (by simp), splitChars_of_not_mem _ _ htask]
    rfl
  rw [taskHandler_resolved tbl cfg r ip ttlStr n httl hip hvalid hparse, hpath, hsplit]
  rfl

/-- C2 (failing input): the request `/prefix/vpn`, with TTL `120` from
`203.0.113.5:54321`, does not reach `Start`; `taskHandler` panics reading
`urlParts[2]` and invokes no task operation. -/
theorem C2_no_action_segment_panics :
    taskHandler id sampleConfig { sampleRequest with Path := "/prefix/vpn" }
      = ([], .panicked "index out of range [2]") := by
  decide

/-- C3 (failing input): with `UrlPrefix = "/Prefix"` and tasks `vpn` and
`prefix`, the request `/Prefix/vpn/on` with TTL `120` from `203.0.113.5:54321`
satisfies the premises of the claim.  The lower-cased path `/prefix/vpn/on` does
not start with `/Prefix`, so nothing is stripped: `taskHandler` takes `prefix`
for the task and `vpn` for the action, and invokes `Start` of the task `prefix`,
not of `vpn`. -/
theorem C3_upper_prefix_starts_other_task :
    upperPrefixConfig.ExplicitIP = false ∧ upperPrefixConfig.RealIPHeader = "" ∧
    upperPrefixConfig.TimeHandler = "" ∧
    ({ sampleRequest with Path := "/Prefix/vpn/on" } : Request).Path
      = upperPrefixConfig.UrlPrefix ++ "/" ++ "vpn" ++ "/on" ∧
    (upperPrefixConfig.Tasks "vpn").isSome = true ∧
    strings_TrimPrefix (strings_ToLower id "/Prefix/vpn/on") upperPrefixConfig.UrlPrefix
      = "/prefix/vpn/on" ∧
    taskHandler id upperPrefixConfig { sampleRequest with Path := "/Prefix/vpn/on" }
      = ([Event.logInfo
            "No action specified, so starting \x27prefix\x27 for 203.0.113.5 and ttl 120",
          Event.Start "prefix" "203.0.113.5" 120,
          Event.logErr "Failed to execute task \x27prefix\x27: prefix start 203.0.113.5"],
         returnOf ((echoTask "prefix").Start "203.0.113.5" 120)) ∧
    taskCalls (taskHandler id upperPrefixConfig { sampleRequest with Path := "/Prefix/vpn/on" }).1
      ≠ [Event.Start "vpn" "203.0.113.5" 120] := by
  decide

/-- The end-to-end scenario for a `UrlPrefix` that lower-casing leaves
unchanged: under `ExplicitIP = false` and `RealIPHeader = ""`, a request whose
path is `UrlPrefix + /<task>/on`, where the lower-cased `<task>` has no slash
and is a configured task name, whose `CF-ttl` header is a decimal numeral of
value `n ≤ 65535` and whose remote address is `<a>:<port>` with `<a>` a
dotted-quad IPv4 literal, makes `taskHandler` invoke exactly `Start(a, n)` of
the task configured under the lower-cased name, and end with what that
application returned. -/
theorem start_on_lower_case_prefix (tbl : Char → Char) (cfg : Config) (r : Request)
    (task a port : String) (n : Nat) (t : Task)
    (hE : cfg.ExplicitIP = false) (hR : cfg.RealIPHeader = "")
    (hlow : strings_ToLower tbl cfg.UrlPrefix = cfg.UrlPrefix)
    (hpath : r.Path = cfg.UrlPrefix ++ ("/" ++ task ++ "/on"))
    (hslash : '/' ∉ (strings_ToLower tbl task).data)
    (hcfg : cfg.Tasks (strings_ToLower tbl task) = some t)
    (hnum : IsDecimalNumeral (r.Header "CF-ttl") n) (hn : n ≤ 65535)
    (hremote : r.RemoteAddr = a ++ ":" ++ port) (ha : IsIPv4Literal a) :
    taskCalls (taskHandler tbl cfg r).1 = [Event.Start (strings_ToLower tbl task) a n] ∧
    (taskHandler tbl cfg r).2 = returnOf (t.Start a n) := by
  have hprep : strings_TrimPrefix (strings_ToLower tbl r.Path) cfg.UrlPrefix
      = "/" ++ strings_ToLower tbl task ++ "/" ++ "on" := by
    rw [hpath, strings_ToLower_append, hlow, strings_TrimPrefix_append,
      strings_ToLower_append, strings_ToLower_append]
    have e1 : strings_ToLower tbl "/" = "/" := rfl
    have e2 : strings_ToLower tbl "/on" = "/" ++ "on" := rfl
    rw [e1, e2]
    simp only [String.append_assoc]
  have hip : resolveIP cfg r = .ok a := by
    rw [resolveIP_remote cfg r (Or.inl hE) hR, hremote,
      strings_Split_remote a port (colon_not_mem_of_IPv4Literal a ha)]
  have httl := resolveTTL_default cfg r hnum.1
  have hvalid := net_ParseIP_of_IPv4Literal a ha
  have hparse := strconv_ParseUint_numeral _ n hnum hn
  refine ⟨taskCalls_path_on tbl cfg r (strings_ToLower tbl task) a (r.Header "CF-ttl") n t hprep
    hslash hcfg httl hip hvalid hparse, ?_⟩
  rw [taskHandler_resolved tbl cfg r a (r.Header "CF-ttl") n httl hip hvalid hparse, hprep,
    strings_Split_task_action _ "on" hslash (by decide),
    dispatch_outcome cfg _ "on" a (r.Header "CF-ttl") n t hcfg]
  simp

/-- The scenario of the spec: `/prefix/vpn/on`, TTL `120`, remote
`203.0.113.5:54321` gives `Start("203.0.113.5", 120)` of `vpn`. -/
theorem start_on_lower_case_prefix_sample :
    taskCalls (taskHandler id sampleConfig sampleRequest).1
      = [Event.Start (strings_ToLower id "vpn") "203.0.113.5" 120] ∧
    (taskHandler id sampleConfig sampleRequest).2
      = returnOf ((sampleTask "vpn").Start "203.0.113.5" 120) :=
  start_on_lower_case_prefix id sampleConfig sampleRequest "vpn" "203.0.113.5" "54321" 120
    (sampleTask "vpn") rfl rfl (by decide) (by decide) (by decide) rfl
    (by unfold IsDecimalNumeral; decide) (by decide) (by decide)
    ⟨"203".data, "0".data, "113".data, "5".data, by unfold IsOctet; decide,
      by unfold IsOctet; decide, by unfold IsOctet; decide, by unfold IsOctet; decide,
      by decide⟩

/-- C4 (counterexample): with `ExplicitIP` enabled, `RealIPHeader = "X-Real-IP"`,
a request carrying `X-Real-IP: 203.0.113.5` and `ip=198.51.100.7` is served with
the query parameter: `Start` is invoked with `198.51.100.7`, not with the header
value. -/
theorem C4_counterexample_explicit_ip_wins :
    proxyConfig.RealIPHeader ≠ "" ∧ proxyRequest.Header proxyConfig.RealIPHeader = "203.0.113.5" ∧
    taskCalls (taskHandler id proxyConfig proxyRequest).1
      = [Event.Start "vpn" "198.51.100.7" 120] ∧
    taskCalls (taskHandler id proxyConfig proxyRequest).1
      ≠ [Event.Start "vpn" (proxyRequest.Header proxyConfig.RealIPHeader) 120] := by
  decide

/-- C4 (amended): with a non-empty `RealIPHeader` whose header the request
carries with a non-empty value, the client IP is that header's value whenever
`ExplicitIP` is disabled or the `ip` query parameter is empty: it is the value
that is validated (a malformed value is reported as such) and every task
operation is invoked with it.  With `ExplicitIP` enabled and a non-empty `ip`
query parameter the client IP is the query parameter instead. -/
theorem C4_real_ip_header (tbl : Char → Char) (cfg : Config) (r : Request)
    (hR : cfg.RealIPHeader ≠ "") (hv : r.Header cfg.RealIPHeader ≠ "") :
    ((cfg.ExplicitIP = false ∨ r.Query "ip" = "") →
      resolveIP cfg r = .ok (r.Header cfg.RealIPHeader) ∧
      (∀ e ∈ taskCalls (taskHandler tbl cfg r).1, ∃ name ttl,
        e = Event.Start name (r.Header cfg.RealIPHeader) ttl ∨
        e = Event.Stop name (r.Header cfg.RealIPHeader)) ∧
      (∀ ttlStr, resolveTTL cfg r = .ok ttlStr → net_ParseIP (r.Header cfg.RealIPHeader) = false →
        taskHandler tbl cfg r
          = ([], .returned none (some ("Malformed IP: " ++ r.Header cfg.RealIPHeader))))) ∧
    ((cfg.ExplicitIP = true ∧ r.Query "ip" ≠ "") →
      resolveIP cfg r = .ok (r.Query "ip")) := by
  refine ⟨fun hgate => ?_, fun h => resolveIP_query cfg r h.1 h.2⟩
  have hip : resolveIP cfg r = .ok (r.Header cfg.RealIPHeader) := by
    rw [resolveIP_header cfg r hgate hR, if_neg hv]
  refine ⟨hip, ?_, ?_⟩
  · intro e he
    obtain ⟨ip, hip2, _, name, ttl, hname⟩ := taskCalls_taskHandler_ip tbl cfg r e he
    rw [hip] at hip2
    cases hip2
    exact ⟨name, ttl, hname⟩
  · intro ttlStr httl hbad
    unfold taskHandler
    simp only [httl, hip, hbad, if_true]

/-- Witness of C4 (amended): the sample deployment with `RealIPHeader` set to
`X-Real-IP`, explicit IPs disabled, and the header carrying `203.0.113.5`. -/
theorem C4_real_ip_header_witness :
    ((false = false ∨ proxyRequest.Query "ip" = "") →
      resolveIP { proxyConfig with ExplicitIP := false } proxyRequest = .ok "203.0.113.5" ∧
      (∀ e ∈ taskCalls (taskHandler id { proxyConfig with ExplicitIP := false } proxyRequest).1,
        ∃ name ttl, e = Event.Start name "203.0.113.5" ttl ∨ e = Event.Stop name "203.0.113.5") ∧
      (∀ ttlStr, resolveTTL { proxyConfig with ExplicitIP := false } proxyRequest = .ok ttlStr →
        net_ParseIP "203.0.113.5" = false →
        taskHandler id { proxyConfig with ExplicitIP := false } proxyRequest
          = ([], .returned none (some ("Malformed IP: " ++ "203.0.113.5"))))) ∧
    ((false = true ∧ proxyRequest.Query "ip" ≠ "") →
      resolveIP { proxyConfig with ExplicitIP := false } proxyRequest
        = .ok (proxyRequest.Query "ip")) :=
  C4_real_ip_header id { proxyConfig with ExplicitIP := false } proxyRequest
    (by decide) (by decide)

/-- C5 (counterexample): under `RealIPHeader = "X-Real-IP"` a request without
that header is (a) served normally, with `Start` invoked and status 200, when
`ExplicitIP` is enabled and an `ip` query parameter is given, and (b) answered
with the TTL error, not the real-IP error, when `TimeHandler` is set and no TTL
header is present. -/
theorem C5_counterexample_header_not_consulted :
    (proxyConfig.RealIPHeader ≠ "" ∧ proxyRequestNoHeader.Header proxyConfig.RealIPHeader = "" ∧
      ServeHTTP (taskHandler id) proxyConfig proxyRequestNoHeader =
        ([Event.logInfo "Starting \x27vpn\x27 for 198.51.100.7, ttl 120",
          Event.Start "vpn" "198.51.100.7" 120],
         .responded { status := 200
                      header := [("Cache-Control", "no-cache, no-store, must-revalidate")]
                      body := json_MarshalIndent ⟨0, ""⟩ })) ∧
    (bothHeadersConfig.RealIPHeader ≠ "" ∧ bareRequest.Header bothHeadersConfig.RealIPHeader = "" ∧
      ServeHTTP (taskHandler id) bothHeadersConfig bareRequest =
        ([], .responded (http_Error [("Cache-Control", "no-cache, no-store, must-revalidate")]
          "Request error: Empty real ttl header" 418))) := by
  decide

/-- C5 (amended): under a non-empty `RealIPHeader`, a request without that
header, for which the TTL header check passes (the default TTL header is not
empty, or `TimeHandler` is not set, or the header it names is not empty) and
the query IP is not used (`ExplicitIP` disabled or `ip` empty), gets status 418
with the message "Empty real IP header, looks like you misconfigured your
reverse-proxy", and no task operation is invoked. -/
theorem C5_empty_real_ip_header (tbl : Char → Char) (cfg : Config) (r : Request)
    (hR : cfg.RealIPHeader ≠ "") (hempty : r.Header cfg.RealIPHeader = "")
    (hgate : cfg.ExplicitIP = false ∨ r.Query "ip" = "")
    (httl : r.Header "CF-ttl" ≠ "" ∨ cfg.TimeHandler = "" ∨ r.Header cfg.TimeHandler ≠ "") :
    ServeHTTP (taskHandler tbl) cfg r =
      ([], .responded
        { status := 418
          header := errorHeaders
          body := "Request error: Empty real IP header, looks like you misconfigured " ++
            "your reverse-proxy\n" }) := by
  have hip : resolveIP cfg r
      = .error "Empty real IP header, looks like you misconfigured your reverse-proxy" := by
    rw [resolveIP_header cfg r hgate hR, if_pos hempty]
  have ht : ∃ ttlStr, resolveTTL cfg r = .ok ttlStr := by
    rw [resolveTTL_eq]
    by_cases h1 : r.Header "CF-ttl" = ""
    · by_cases h2 : cfg.TimeHandler = ""
      · exact ⟨r.Header "CF-ttl", by simp [h1, h2]⟩
      · have h3 : r.Header cfg.TimeHandler ≠ "" := by
          rcases httl with h | h | h
          · exact absurd h1 h
          · exact absurd h h2
          · exact h
        exact ⟨r.Header cfg.TimeHandler, by simp [h1, h2, h3]⟩
    · exact ⟨r.Header "CF-ttl", by simp [h1]⟩
  obtain ⟨ttlStr, ht⟩ := ht
  have hth : taskHandler tbl cfg r = ([], .returned none
      (some "Empty real IP header, looks like you misconfigured your reverse-proxy")) := by
    unfold taskHandler
    simp only [ht, hip]
  unfold ServeHTTP
  simp only [hth]
  rfl

/-- Witness of C5 (amended): the proxy configuration with explicit IPs disabled
and a request that carries a TTL but no `X-Real-IP` header. -/
theorem C5_empty_real_ip_header_witness :
    ServeHTTP (taskHandler id) { proxyConfig with ExplicitIP := false } proxyRequestNoHeader =
      ([], .responded
        { status := 418
          header := errorHeaders
          body := "Request error: Empty real IP header, looks like you misconfigured " ++
            "your reverse-proxy\n" }) :=
  C5_empty_real_ip_header id { proxyConfig with ExplicitIP := false } proxyRequestNoHeader
    (by decide) (by decide) (Or.inl rfl) (Or.inl (by decide))

/-- C6: under a non-empty `TimeHandler`, a request whose default TTL header
`CF-ttl` and whose header named by `TimeHandler` are both empty gets status 418
with the message "Empty real ttl header", and no task operation is invoked,
whatever the query, the remote address and the other settings are. -/
theorem C6_empty_ttl_header (tbl : Char → Char) (cfg : Config) (r : Request)
    (hT : cfg.TimeHandler ≠ "") (h1 : r.Header "CF-ttl" = "")
    (h2 : r.Header cfg.TimeHandler = "") :
    ServeHTTP (taskHandler tbl) cfg r =
      ([], .responded
        { status := 418
          header := errorHeaders
          body := "Request error: Empty real ttl header\n" }) := by
  have ht : resolveTTL cfg r = .error "Empty real ttl header" := by
    rw [resolveTTL_eq]
    simp [h1, hT, h2]
  have hth : taskHandler tbl cfg r = ([], .returned none (some "Empty real ttl header")) := by
    unfold taskHandler
    simp only [ht]
  unfold ServeHTTP
  simp only [hth]
  rfl

/-- Witness of C6: `TimeHandler = "X-TTL"` and a request without any header. -/
theorem C6_empty_ttl_header_witness :
    ServeHTTP (taskHandler id) bothHeadersConfig bareRequest =
      ([], .responded
        { status := 418
          header := errorHeaders
          body := "Request error: Empty real ttl header\n" }) :=
  C6_empty_ttl_header id bothHeadersConfig bareRequest (by decide) (by decide) (by decide)

/-- C7: a request whose TTL string and client IP are resolved and whose client
IP string is refused by `net.ParseIP` gets status 418 with the message
`Malformed IP: <value>`, where `<value>` is exactly the resolved IP string, and
no task operation is invoked. -/
theorem C7_malformed_ip (tbl : Char → Char) (cfg : Config) (r : Request) (ttlStr ip : String)
    (httl : resolveTTL cfg r = .ok ttlStr) (hip : resolveIP cfg r = .ok ip)
    (hbad : net_ParseIP ip = false) :
    ServeHTTP (taskHandler tbl) cfg r =
      ([], .responded
        { status := 418
          header := errorHeaders
          body := "Request error: Malformed IP: " ++ ip ++ "\n" }) := by
  have hth : taskHandler tbl cfg r = ([], .returned none (some ("Malformed IP: " ++ ip))) := by
    unfold taskHandler
    simp only [httl, hip, hbad, if_true]
  unfold ServeHTTP
  simp only [hth]
  simp [http_Error, errorHeaders, String.append_assoc]
  rw [← String.append_assoc]
  rfl

/-- Witness of C7: the `ip` query parameter `not-an-ip` under `ExplicitIP`. -/
theorem C7_malformed_ip_witness :
    ServeHTTP (taskHandler id) { sampleConfig with ExplicitIP := true }
        { sampleRequest with Query := fun _ => "not-an-ip" } =
      ([], .responded
        { status := 418
          header := errorHeaders
          body := "Request error: Malformed IP: " ++ "not-an-ip" ++ "\n" }) :=
  C7_malformed_ip id { sampleConfig with ExplicitIP := true }
    { sampleRequest with Query := fun _ => "not-an-ip" } "120" "not-an-ip" rfl rfl (by decide)

/-- The IPv4 half of the port stripping: when the query IP is not used and no
`RealIPHeader` is configured, a remote address `<a>:<port>` with `<a>` a
dotted-quad IPv4 literal resolves to `<a>`. -/
theorem resolveIP_remote_IPv4 (cfg : Config) (r : Request) (a port : String)
    (hgate : cfg.ExplicitIP = false ∨ r.Query "ip" = "") (hR : cfg.RealIPHeader = "")
    (hremote : r.RemoteAddr = a ++ ":" ++ port) (ha : IsIPv4Literal a) :
    resolveIP cfg r = .ok a := by
  rw [resolveIP_remote cfg r hgate hR, hremote,
    strings_Split_remote a port (colon_not_mem_of_IPv4Literal a ha)]

/-- C8 (failing input): for the remote address `[2001:db8::1]:54321`, whose host
`2001:db8::1` is an IPv6 literal accepted by `net.ParseIP`, the client IP that
`taskHandler` resolves is `[2001`, the text before the first colon, and the
request is refused as `Malformed IP: [2001`. -/
theorem C8_ipv6_remote_addr_cut_at_first_colon :
    sampleConfig.ExplicitIP = false ∧ sampleConfig.RealIPHeader = "" ∧
    ipv6Request.RemoteAddr = "[" ++ "2001:db8::1" ++ "]:" ++ "54321" ∧
    net_ParseIP "2001:db8::1" = true ∧
    (strings_Split ipv6Request.RemoteAddr ':').headD "" = "[2001" ∧
    ServeHTTP (taskHandler id) sampleConfig ipv6Request =
      ([], .responded
        { status := 418
          header := errorHeaders
          body := "Request error: Malformed IP: [2001\n" }) := by
  decide

/-- C9: with `ExplicitIP` disabled, two requests with the same path, headers and
remote address, whatever their query parameters, make `taskHandler` behave the
same: same trace of log lines and task operations, same return value or
abnormal end, hence also the same response. -/
theorem C9_query_ip_ignored (tbl : Char → Char) (cfg : Config) (r1 r2 : Request)
    (hE : cfg.ExplicitIP = false) (hP : r1.Path = r2.Path) (hH : r1.Header = r2.Header)
    (hA : r1.RemoteAddr = r2.RemoteAddr) :
    taskHandler tbl cfg r1 = taskHandler tbl cfg r2 ∧
    ServeHTTP (taskHandler tbl) cfg r1 = ServeHTTP (taskHandler tbl) cfg r2 := by
  have hip : resolveIP cfg r1 = resolveIP cfg r2 := by
    unfold resolveIP
    simp only [hE, or_true, if_true, hH, hA]
  have httl : resolveTTL cfg r1 = resolveTTL cfg r2 := by
    unfold resolveTTL
    simp only [hH]
  have hth : taskHandler tbl cfg r1 = taskHandler tbl cfg r2 := by
    unfold taskHandler
    simp only [hip, httl, hP]
  refine ⟨hth, ?_⟩
  unfold ServeHTTP
  simp only [hth]

/-- Witness of C9: the sample request with and without `ip=198.51.100.7`. -/
theorem C9_query_ip_ignored_witness :
    taskHandler id sampleConfig sampleRequest = taskHandler id sampleConfig sampleRequestWithIP ∧
    ServeHTTP (taskHandler id) sampleConfig sampleRequest
      = ServeHTTP (taskHandler id) sampleConfig sampleRequestWithIP :=
  C9_query_ip_ignored id sampleConfig sampleRequest sampleRequestWithIP rfl rfl rfl rfl

/-- C10: when the bound handler function returns a non-nil error, whatever the
result value, `ServeHTTP` responds with status 418, the `Cache-Control` header
`no-cache, no-store, must-revalidate`, and the body `Request error: <message>`
followed by the newline `http.Error` appends. -/
theorem C10_error_response (H : Config → Request → List Event × Outcome) (cfg : Config)
    (r : Request) (tr : List Event) (res : Option taskResult) (e : String)
    (h : H cfg r = (tr, .returned res (some e))) :
    ServeHTTP H cfg r =
      (tr, .responded
        { status := 418
          header := [("Cache-Control", "no-cache, no-store, must-revalidate"),
            ("Content-Type", "text/plain; charset=utf-8"),
            ("X-Content-Type-Options", "nosniff")]
          body := "Request error: " ++ e ++ "\n" }) := by
  unfold ServeHTTP
  simp only [h]
  simp [http_Error, String.append_assoc]

/-- Witness of C10: a handler function returning a result together with the
error `boom`. -/
theorem C10_error_response_witness :
    ServeHTTP resultAndErrorHandler sampleConfig sampleRequest =
      ([], .responded
        { status := 418
          header := [("Cache-Control", "no-cache, no-store, must-revalidate"),
            ("Content-Type", "text/plain; charset=utf-8"),
            ("X-Content-Type-Options", "nosniff")]
          body := "Request error: " ++ "boom" ++ "\n" }) :=
  C10_error_response resultAndErrorHandler sampleConfig sampleRequest [] (some ⟨0, ""⟩) "boom" rfl

/-- C11: when the bound handler function returns a non-nil result and a nil
error, `ServeHTTP` responds with status 500 exactly when `Retcode != 0` and with
status 200 exactly when `Retcode == 0`; the body is the pretty-printed
serialization of the result, an object with the fields `Retcode` and `Err` in
this order, followed in the 500 case by the newline `http.Error` appends. -/
theorem C11_result_response (H : Config → Request → List Event × Outcome) (cfg : Config)
    (r : Request) (tr : List Event) (res : taskResult)
    (h : H cfg r = (tr, .returned (some res) none)) :
    ∃ resp, ServeHTTP H cfg r = (tr, .responded resp) ∧
      (resp.status = 500 ↔ res.Retcode ≠ 0) ∧ (resp.status = 200 ↔ res.Retcode = 0) ∧
      resp.body =
        (if res.Retcode ≠ 0 then json_MarshalIndent res ++ "\n" else json_MarshalIndent res) ∧
      json_MarshalIndent res =
        "\x7b\n  \"Retcode\": " ++ toString res.Retcode ++ ",\n  \"Err\": " ++
          jsonString res.Err ++ "\n\x7d" := by
  by_cases hr : res.Retcode ≠ 0
  · refine ⟨http_Error [("Cache-Control", "no-cache, no-store, must-revalidate")]
      (json_MarshalIndent res) 500, ?_, ?_, ?_, ?_, rfl⟩
    · unfold ServeHTTP
      simp only [h]
      rw [if_pos hr]
    · simp [http_Error, hr]
    · simp only [http_Error]
      constructor
      · intro h5
        cases h5
      · intro h0
        exact absurd h0 hr
    · simp [http_Error, hr]
  · have hz : res.Retcode = 0 := by simpa using hr
    refine ⟨{ status := 200
              header := [("Cache-Control", "no-cache, no-store, must-revalidate")]
              body := json_MarshalIndent res }, ?_, ?_, ?_, ?_, rfl⟩
    · unfold ServeHTTP
      simp only [h]
      rw [if_neg hr]
    · simp [hz]
    · simp [hz]
    · simp [hz]

/-- Witness of C11: a handler function returning the result `(3, "no rule")`. -/
theorem C11_result_response_witness :
    ∃ resp, ServeHTTP failedResultHandler sampleConfig sampleRequest = ([], .responded resp) ∧
      (resp.status = 500 ↔ (3 : Int) ≠ 0) ∧ (resp.status = 200 ↔ (3 : Int) = 0) ∧
      resp.body =
        (if (3 : Int) ≠ 0 then json_MarshalIndent ⟨3, "no rule"⟩ ++ "\n"
          else json_MarshalIndent ⟨3, "no rule"⟩) ∧
      json_MarshalIndent ⟨3, "no rule"⟩ =
        "\x7b\n  \"Retcode\": " ++ toString (3 : Int) ++ ",\n  \"Err\": " ++
          jsonString "no rule" ++ "\n\x7d" :=
  C11_result_response failedResultHandler sampleConfig sampleRequest [] ⟨3, "no rule"⟩ rfl

/-- C12 (counterexample): a task whose `Start` returns `Retcode = 0` together
with `Err = "warning"` is answered with status 200 and a body whose `Err` field
carries `warning`. -/
theorem C12_counterexample_err_with_retcode_zero :
    warningTask.Start "203.0.113.5" 120 = some ⟨0, "warning"⟩ ∧
    ServeHTTP (taskHandler id) warningConfig sampleRequest =
      ([Event.logInfo "Starting \x27vpn\x27 for 203.0.113.5, ttl 120",
        Event.Start "vpn" "203.0.113.5" 120],
       .responded
        { status := 200
          header := [("Cache-Control", "no-cache, no-store, must-revalidate")]
          body := "\x7b\n  \"Retcode\": 0,\n  \"Err\": \"warning\"\n\x7d" }) := by
  decide

/-- C12 (amended): a result that `taskHandler` returns is the result of a
`Start` or `Stop` of a configured task, and `ServeHTTP` presents it unchanged:
with `Retcode = 0` the status is 200 and the body is the serialization of the
result, whose `Err` field is empty exactly when the operation returned an empty
`Err`; with `Retcode != 0` the status is 500. -/
theorem C12_result_passed_unchanged (tbl : Char → Char) (cfg : Config) (r : Request)
    (tr : List Event) (res : taskResult)
    (h : taskHandler tbl cfg r = (tr, .returned (some res) none)) :
    (∃ name t ip ttl, cfg.Tasks name = some t ∧
      (t.Start ip ttl = some res ∨ t.Stop ip = some res)) ∧
    (res.Retcode = 0 →
      ServeHTTP (taskHandler tbl) cfg r =
        (tr, .responded
          { status := 200
            header := [("Cache-Control", "no-cache, no-store, must-revalidate")]
            body := "\x7b\n  \"Retcode\": 0,\n  \"Err\": " ++ jsonString res.Err ++ "\n\x7d" })) ∧
    (res.Retcode ≠ 0 →
      ServeHTTP (taskHandler tbl) cfg r =
        (tr, .responded (http_Error [("Cache-Control", "no-cache, no-store, must-revalidate")]
          (json_MarshalIndent res) 500))) ∧
    (jsonString res.Err = "\"\"" ↔ res.Err = "") := by
  refine ⟨?_, ?_, ?_, jsonString_eq_empty_iff res.Err⟩
  · rcases taskHandler_cases tbl cfg r with ⟨e, he⟩ | ⟨err, he⟩ | ⟨ip, ttlStr, n, _, _, _, _, he⟩
    · rw [he] at h
      cases h
    · rw [he] at h
      cases h
    · have h2 : (dispatch cfg
          (strings_Split (strings_TrimPrefix (strings_ToLower tbl r.Path) cfg.UrlPrefix) '/')
          ip ttlStr n).2 = .returned (some res) none := by
        rw [← he, h]
      obtain ⟨_, name, t, x, hx, ht, hop⟩ := dispatch_returned _ _ _ _ _ _ _ h2
      cases hx
      exact ⟨name, t, ip, n, ht, hop⟩
  · intro hz
    unfold ServeHTTP
    have e : "\x7b\n  \"Retcode\": " ++ toString (0 : Int) ++ ",\n  \"Err\": "
        = "\x7b\n  \"Retcode\": 0,\n  \"Err\": " := by decide
    simp only [h, hz, ne_eq, not_true_eq_false, if_false, json_MarshalIndent, e]
  · intro hnz
    unfold ServeHTTP
    simp only [h, hnz, ne_eq, not_false_eq_true, if_true]

/-- Witness of C12 (amended): the sample request on the sample deployment,
whose `Start` returns `(0, "")`. -/
theorem C12_result_passed_unchanged_witness :
    (∃ name t ip ttl, sampleConfig.Tasks name = some t ∧
      (t.Start ip ttl = some ⟨0, ""⟩ ∨ t.Stop ip = some ⟨0, ""⟩)) ∧
    ((0 : Int) = 0 →
      ServeHTTP (taskHandler id) sampleConfig sampleRequest =
        ([Event.logInfo "Starting \x27vpn\x27 for 203.0.113.5, ttl 120",
          Event.Start "vpn" "203.0.113.5" 120],
         .responded
          { status := 200
            header := [("Cache-Control", "no-cache, no-store, must-revalidate")]
            body := "\x7b\n  \"Retcode\": 0,\n  \"Err\": " ++ jsonString "" ++ "\n\x7d" })) ∧
    ((0 : Int) ≠ 0 →
      ServeHTTP (taskHandler id) sampleConfig sampleRequest =
        ([Event.logInfo "Starting \x27vpn\x27 for 203.0.113.5, ttl 120",
          Event.Start "vpn" "203.0.113.5" 120],
         .responded (http_Error [("Cache-Control", "no-cache, no-store, must-revalidate")]
          (json_MarshalIndent ⟨0, ""⟩) 500))) ∧
    (jsonString "" = "\"\"" ↔ ("" : String) = "") :=
  C12_result_passed_unchanged id sampleConfig sampleRequest
    [Event.logInfo "Starting \x27vpn\x27 for 203.0.113.5, ttl 120",
      Event.Start "vpn" "203.0.113.5" 120] ⟨0, ""⟩ (by decide)

/-- C13: for every request path that begins with `/`, `defaultHandler` logs the
failure and returns a nil result and a non-nil error; the error is "Looks like
you didn't specify a task" exactly when the first path segment is empty and
"No such task" otherwise, and `ServeHTTP` turns it into a 418 response. -/
theorem C13_default_route (cfg : Config) (r : Request) (rest : String)
    (h : r.Path = "/" ++ rest) :
    defaultHandler cfg r =
      ([Event.logErr ("Bad request: \x27" ++ r.Path ++ "\x27: " ++
          defaultMessage (firstSegment r.Path))],
        .returned none (some (defaultMessage (firstSegment r.Path)))) ∧
    (defaultMessage (firstSegment r.Path) = "Looks like you didn\x27t specify a task" ↔
      firstSegment r.Path = "") ∧
    (defaultMessage (firstSegment r.Path) = "No such task" ↔ firstSegment r.Path ≠ "") ∧
    ServeHTTP defaultHandler cfg r =
      ([Event.logErr ("Bad request: \x27" ++ r.Path ++ "\x27: " ++
          defaultMessage (firstSegment r.Path))],
        .responded
          { status := 418
            header := errorHeaders
            body := "Request error: " ++ defaultMessage (firstSegment r.Path) ++ "\n" }) := by
  have hd : defaultHandler cfg r =
      ([Event.logErr ("Bad request: \x27" ++ r.Path ++ "\x27: " ++
          defaultMessage (firstSegment r.Path))],
        .returned none (some (defaultMessage (firstSegment r.Path)))) := by
    unfold defaultHandler
    simp only [strings_Split_firstSegment r.Path rest h]
    rfl
  refine ⟨hd, ?_, ?_, ?_⟩
  · unfold defaultMessage
    by_cases hs : firstSegment r.Path = ""
    · simp [hs]
    · simp only [hs, if_false, iff_false]
      decide
  · unfold defaultMessage
    by_cases hs : firstSegment r.Path = ""
    · simp only [hs, if_true, ne_eq, not_true_eq_false, iff_false]
      decide
    · simp [hs]
  · unfold ServeHTTP
    simp only [hd]
    simp [http_Error, errorHeaders, String.append_assoc]

/-- Witness of C13: the paths `/` and `/unknown`. -/
theorem C13_default_route_witness :
    ServeHTTP defaultHandler sampleConfig { sampleRequest with Path := "/" } =
      ([Event.logErr "Bad request: \x27/\x27: Looks like you didn\x27t specify a task"],
        .responded
          { status := 418
            header := errorHeaders
            body := "Request error: Looks like you didn\x27t specify a task\n" }) ∧
    ServeHTTP defaultHandler sampleConfig { sampleRequest with Path := "/unknown" } =
      ([Event.logErr "Bad request: \x27/unknown\x27: No such task"],
        .responded
          { status := 418
            header := errorHeaders
            body := "Request error: No such task\n" }) :=
  ⟨(C13_default_route sampleConfig { sampleRequest with Path := "/" } "" rfl).2.2.2,
    (C13_default_route sampleConfig { sampleRequest with Path := "/unknown" } "unknown"
      rfl).2.2.2⟩

/-- C14: whenever `taskHandler` returns a non-nil error, its result is nil, its
trace is empty, and so neither `Start` nor `Stop` of any task has been
invoked. -/
theorem C14_error_means_no_operation (tbl : Char → Char) (cfg : Config) (r : Request)
    (res : Option taskResult) (e : String)
    (h : (taskHandler tbl cfg r).2 = .returned res (some e)) :
    res = none ∧ (taskHandler tbl cfg r).1 = [] ∧ taskCalls (taskHandler tbl cfg r).1 = [] := by
  rcases taskHandler_cases tbl cfg r with ⟨e1, he⟩ | ⟨err, he⟩ | ⟨ip, ttlStr, n, _, _, _, _, he⟩
  · rw [he] at h ⊢
    simp only [Outcome.returned.injEq] at h
    exact ⟨h.1.symm, rfl, rfl⟩
  · rw [he] at h
    cases h
  · rw [he] at h
    have := (dispatch_returned _ _ _ _ _ _ _ h).1
    cases this

/-- Witness of C14: a request without any header under `TimeHandler = "X-TTL"`
returns the error "Empty real ttl header". -/
theorem C14_error_means_no_operation_witness :
    (none : Option taskResult) = none ∧ (taskHandler id bothHeadersConfig bareRequest).1 = [] ∧
      taskCalls (taskHandler id bothHeadersConfig bareRequest).1 = [] :=
  C14_error_means_no_operation id bothHeadersConfig bareRequest none "Empty real ttl header"
    (by decide)

/-- C15: for a request whose TTL string and client IP are resolved and whose
IP validates, the TTL string is accepted exactly when it is an unsigned decimal
numeral of value at most 65535.  Then `taskHandler` goes on to the dispatch with
that value, and every task operation it invokes carries exactly that value as
`ttl`.  For every other TTL string `taskHandler` ends in `log.Fatal` with an
empty trace, whatever the path and so whatever the action. -/
theorem C15_ttl_accepted_iff_numeral (tbl : Char → Char) (cfg : Config) (r : Request)
    (ttlStr ip : String)
    (httl : resolveTTL cfg r = .ok ttlStr) (hip : resolveIP cfg r = .ok ip)
    (hvalid : net_ParseIP ip = true) :
    (∀ n, IsDecimalNumeral ttlStr n → n ≤ 65535 →
      taskHandler tbl cfg r =
        dispatch cfg
          (strings_Split (strings_TrimPrefix (strings_ToLower tbl r.Path) cfg.UrlPrefix) '/')
          ip ttlStr n ∧
      ∀ e ∈ taskCalls (taskHandler tbl cfg r).1,
        ∃ name, e = Event.Start name ip n ∨ e = Event.Stop name ip) ∧
    ((∃ err, taskHandler tbl cfg r = ([], .fatal err)) ↔
      ¬ ∃ n, IsDecimalNumeral ttlStr n ∧ n ≤ 65535) := by
  constructor
  · intro n hnum hn
    have hparse := strconv_ParseUint_numeral ttlStr n hnum hn
    have hth := taskHandler_resolved tbl cfg r ip ttlStr n httl hip hvalid hparse
    refine ⟨hth, ?_⟩
    intro e he
    rw [hth] at he
    exact taskCalls_dispatch_ip _ _ _ _ _ e he
  · constructor
    · rintro ⟨err, herr⟩ ⟨n, hnum, hn⟩
      have hparse := strconv_ParseUint_numeral ttlStr n hnum hn
      have hth := taskHandler_resolved tbl cfg r ip ttlStr n httl hip hvalid hparse
      rw [hth] at herr
      exact dispatch_ne_fatal _ _ _ _ _ err (by rw [herr])
    · intro hno
      cases hparse : strconv_ParseUint ttlStr 16 with
      | error err =>
        exact ⟨err, by unfold taskHandler; simp [httl, hip, hvalid, hparse]⟩
      | ok n =>
        exact absurd ⟨n, (strconv_ParseUint_ok_iff ttlStr n).mp hparse⟩ hno

/-- Witness of C15: the TTL header `70000` on a request to `/prefix/vpn/off`. -/
theorem C15_ttl_accepted_iff_numeral_witness :
    (∀ n, IsDecimalNumeral "70000" n → n ≤ 65535 →
      taskHandler id sampleConfig bigTTLRequest =
        dispatch sampleConfig
          (strings_Split (strings_TrimPrefix (strings_ToLower id bigTTLRequest.Path)
            sampleConfig.UrlPrefix) '/')
          "203.0.113.5" "70000" n ∧
      ∀ e ∈ taskCalls (taskHandler id sampleConfig bigTTLRequest).1,
        ∃ name, e = Event.Start name "203.0.113.5" n ∨ e = Event.Stop name "203.0.113.5") ∧
    ((∃ err, taskHandler id sampleConfig bigTTLRequest = ([], .fatal err)) ↔
      ¬ ∃ n, IsDecimalNumeral "70000" n ∧ n ≤ 65535) :=
  C15_ttl_accepted_iff_numeral id sampleConfig bigTTLRequest "70000" "203.0.113.5" rfl rfl
    (by decide)

/-- The fatal path on sample TTL strings: empty, signed, with a non-digit, and
above 65535, each on a request to `/prefix/vpn/off`. -/
theorem taskHandler_fatal_samples :
    (∀ ttl ∈ ["", "-5", "+5", "12a", "1 2"],
      taskHandler id sampleConfig
        { bigTTLRequest with Header := fun k => if k = "CF-ttl" then ttl else "" }
        = ([], .fatal .ErrSyntax)) ∧
    (∀ ttl ∈ ["65536", "70000", "18446744073709551616"],
      taskHandler id sampleConfig
        { bigTTLRequest with Header := fun k => if k = "CF-ttl" then ttl else "" }
        = ([], .fatal .ErrRange)) := by
  decide

/-- C16 (failing input): with `UrlPrefix = "/Prefix"` the path
`/Prefix/vpn/off` is lower-cased but keeps its prefix: the URL parts are
`"", "prefix", "vpn", "off"`, the task looked up is `prefix`, the action is
`vpn`, and `Start` of `prefix` is invoked instead of `Stop` of `vpn`. -/
theorem C16_upper_prefix_off_starts_other_task :
    upperPrefixOffRequest.Path = upperPrefixConfig.UrlPrefix ++ ("/" ++ "vpn" ++ "/" ++ "off") ∧
    strings_Split
      (strings_TrimPrefix (strings_ToLower id upperPrefixOffRequest.Path)
        upperPrefixConfig.UrlPrefix) '/' = ["", "prefix", "vpn", "off"] ∧
    taskHandler id upperPrefixConfig upperPrefixOffRequest
      = ([Event.logInfo
            "No action specified, so starting \x27prefix\x27 for 203.0.113.5 and ttl 120",
          Event.Start "prefix" "203.0.113.5" 120,
          Event.logErr "Failed to execute task \x27prefix\x27: prefix start 203.0.113.5"],
         returnOf ((echoTask "prefix").Start "203.0.113.5" 120)) ∧
    taskCalls (taskHandler id upperPrefixConfig upperPrefixOffRequest).1
      ≠ [Event.Stop "vpn" "203.0.113.5"] := by
  decide

/-- Stripping and lower-casing for a `UrlPrefix` that lower-casing leaves
unchanged: on a request path `UrlPrefix + /<task>/<action>` whose lower-cased
`<task>` and `<action>` contain no slash, `taskHandler` works on the URL parts
`""`, the lower-cased `<task>` and the lower-cased `<action>`: once TTL and IP
are resolved it dispatches on them, looking the task up under the lower-cased
`<task>` and choosing the operation by the lower-cased `<action>`. -/
theorem urlParts_on_lower_case_prefix (tbl : Char → Char) (cfg : Config) (r : Request)
    (task action : String)
    (hlow : strings_ToLower tbl cfg.UrlPrefix = cfg.UrlPrefix)
    (hpath : r.Path = cfg.UrlPrefix ++ ("/" ++ task ++ "/" ++ action))
    (hts : '/' ∉ (strings_ToLower tbl task).data)
    (has : '/' ∉ (strings_ToLower tbl action).data) :
    strings_Split (strings_TrimPrefix (strings_ToLower tbl r.Path) cfg.UrlPrefix) '/'
      = ["", strings_ToLower tbl task, strings_ToLower tbl action] ∧
    (∀ ip ttlStr n, resolveTTL cfg r = .ok ttlStr → resolveIP cfg r = .ok ip →
      net_ParseIP ip = true → strconv_ParseUint ttlStr 16 = .ok n →
      taskHandler tbl cfg r =
        dispatch cfg ["", strings_ToLower tbl task, strings_ToLower tbl action] ip ttlStr n) ∧
    (∀ ip ttlStr n t, resolveTTL cfg r = .ok ttlStr → resolveIP cfg r = .ok ip →
      net_ParseIP ip = true → strconv_ParseUint ttlStr 16 = .ok n →
      cfg.Tasks (strings_ToLower tbl task) = some t →
      taskCalls (taskHandler tbl cfg r).1 =
        if strings_ToLower tbl action = "off" then [Event.Stop (strings_ToLower tbl task) ip]
        else [Event.Start (strings_ToLower tbl task) ip n]) := by
  have hprep : strings_TrimPrefix (strings_ToLower tbl r.Path) cfg.UrlPrefix
      = "/" ++ strings_ToLower tbl task ++ "/" ++ strings_ToLower tbl action := by
    rw [hpath, strings_ToLower_append, hlow, strings_TrimPrefix_append,
      strings_ToLower_append, strings_ToLower_append, strings_ToLower_append]
    have e1 : strings_ToLower tbl "/" = "/" := rfl
    rw [e1]
  have hsplit := strings_Split_task_action _ _ hts has
  refine ⟨by rw [hprep, hsplit], ?_, ?_⟩
  · intro ip ttlStr n httl hip hvalid hparse
    rw [taskHandler_resolved tbl cfg r ip ttlStr n httl hip hvalid hparse, hprep, hsplit]
  · intro ip ttlStr n t httl hip hvalid hparse hcfg
    rw [taskHandler_resolved tbl cfg r ip ttlStr n httl hip hvalid hparse, hprep, hsplit,
      taskCalls_dispatch cfg _ _ ip ttlStr n t hcfg]

/-- The path `/prefix/VPN/OFF` on the sample deployment is dispatched as task
`vpn`, action `off`. -/
theorem urlParts_on_lower_case_prefix_sample :
    strings_Split (strings_TrimPrefix (strings_ToLower id upperCaseOffRequest.Path)
        sampleConfig.UrlPrefix) '/'
      = ["", strings_ToLower id "VPN", strings_ToLower id "OFF"] ∧
    (∀ ip ttlStr n, resolveTTL sampleConfig upperCaseOffRequest = .ok ttlStr →
      resolveIP sampleConfig upperCaseOffRequest = .ok ip →
      net_ParseIP ip = true → strconv_ParseUint ttlStr 16 = .ok n →
      taskHandler id sampleConfig upperCaseOffRequest =
        dispatch sampleConfig ["", strings_ToLower id "VPN", strings_ToLower id "OFF"]
          ip ttlStr n) ∧
    (∀ ip ttlStr n t, resolveTTL sampleConfig upperCaseOffRequest = .ok ttlStr →
      resolveIP sampleConfig upperCaseOffRequest = .ok ip →
      net_ParseIP ip = true → strconv_ParseUint ttlStr 16 = .ok n →
      sampleConfig.Tasks (strings_ToLower id "VPN") = some t →
      taskCalls (taskHandler id sampleConfig upperCaseOffRequest).1 =
        if strings_ToLower id "OFF" = "off" then [Event.Stop (strings_ToLower id "VPN") ip]
        else [Event.Start (strings_ToLower id "VPN") ip n]) :=
  urlParts_on_lower_case_prefix id sampleConfig upperCaseOffRequest "VPN" "OFF" (by decide)
    (by decide)
    (by decide) (by decide)

/-- The same request evaluated: `/prefix/VPN/OFF` invokes `Stop` of `vpn`. -/
theorem taskHandler_upper_case_off :
    taskCalls (taskHandler id sampleConfig upperCaseOffRequest).1
      = [Event.Stop "vpn" "203.0.113.5"] := by
  decide

end Labean
